import Mathlib

/-!
# The Threshing Floor — collection engine, shallow embedding

A shallow embedding of the Reddit collection engine of The Threshing Floor:
the rate limiter, the retrying source client and its `collect` orchestrator
(`reddit.js`, Cloudflare Pages variant), the static-site collector
(`docs/js/app.js` with its `Thresh.Reddit` / `Thresh.Export` modules), and the
export pipeline (anonymization, CSV/JSON/JSONL serialization, provenance).

JavaScript semantics are embedded explicitly: 32-bit wrap-around for bitwise
operators (`toInt32`), UTF-16 code units for `charCodeAt`, truthiness of `""`,
`0`, `null` and `undefined` via `Option` and emptiness tests, and wall-clock
time as an explicit `Nat` millisecond parameter threaded through the state.
Network I/O is modelled by an oracle `Nat → NetResp` indexed by the number of
physical fetches issued so far; JS numbers that only ever hold integral values
are modelled as `Int`/`Nat`.
-/

namespace Thresh

/-- JS `ToInt32`: wrap an integer to the signed 32-bit range, as the bitwise
operators (`<< 5`, `| 0`, `x & x`) do. -/
def toInt32 (x : Int) : Int := (x + 2 ^ 31) % 2 ^ 32 - 2 ^ 31

/-- The UTF-16 code units of a string, in order: JS `s.length` / `s.charCodeAt(i)`
enumerate these (astral codepoints become surrogate pairs). -/
def utf16Units (s : String) : List Nat :=
  (s.data.map fun c =>
    if c.toNat < 0x10000 then [c.toNat]
    else [0xD800 + (c.toNat - 0x10000) / 0x400, 0xDC00 + (c.toNat - 0x10000) % 0x400]).flatten

/-- Digit characters used by JS `Number.prototype.toString(36)` (and base 10). -/
def digitChar36 (d : Nat) : Char :=
  "0123456789abcdefghijklmnopqrstuvwxyz".data.getD d '0'

/-- Digits of `n` in the given base, most significant first. Structural
recursion on a fuel argument (`fuel = n` always suffices, since `n / base`
strictly shrinks); the fuel-exhausted fallback renders the last digit, which
makes `natBaseAux n n base` correct for every `n` including 0. -/
def natBaseAux (base : Nat) : Nat → Nat → List Char
  | 0, n => [digitChar36 (n % base)]
  | fuel + 1, n =>
    if n < base then [digitChar36 n]
    else natBaseAux base fuel (n / base) ++ [digitChar36 (n % base)]

/-- JS `n.toString(36)` for a nonnegative integral number. -/
def jsToString36 (n : Nat) : String := ⟨natBaseAux 36 n n⟩

/-- JS `String(n)` for a nonnegative integral number. -/
def jsNat (n : Nat) : String := ⟨natBaseAux 10 n n⟩

/-- JS `String(i)` for an integral number. -/
def jsInt (i : Int) : String := if i < 0 then "-" ++ jsNat i.natAbs else jsNat i.natAbs

/-- One step of the rolling hash shared by `Exporter._anonymize` and
`hashUsername`: `h = ((h << 5) - h + code) | 0` (the part_004 variant spells
the final wrap `hash & hash`, which is the same `ToInt32`). -/
def hashStep (h : Int) (code : Nat) : Int := toInt32 (toInt32 (h * 32) - h + code)

/-- The full rolling hash of a username (fold of `hashStep` over the UTF-16
code units, starting from 0). -/
def jsHash (s : String) : Int := (utf16Units s).foldl hashStep 0

/-- `hashUsername` from the static-site export module (part_008):
falsy or sentinel input passes through as `[deleted]`, otherwise
`'user_' + Math.abs(h).toString(36)`. -/
def hashUsername (name : Option String) : String :=
  match name with
  | none => "[deleted]"
  | some s =>
    if s = "" || s = "[deleted]" then "[deleted]"
    else "user_" ++ jsToString36 (jsHash s).natAbs

/-- `Exporter._anonymize` from the Pages app (part_004): same hash, with the
base-36 rendering additionally truncated by `.slice(0, 8)`. -/
def anonymize (username : Option String) : String :=
  match username with
  | none => "[deleted]"
  | some s =>
    if s = "" || s = "[deleted]" then "[deleted]"
    else "user_" ++ (jsToString36 (jsHash s).natAbs).take 8

/-- C10: every falsy username (`undefined`/`null` ↦ `none`, the empty string)
anonymizes to the sentinel `[deleted]`, exactly as the explicit `[deleted]`
input does, in both `hashUsername` (part_008) and `Exporter._anonymize`
(part_004); a record with a missing author therefore never yields an empty or
hash-derived pseudonym. -/
theorem C10_falsy_author_sentinel :
    hashUsername none = "[deleted]" ∧ hashUsername (some "") = "[deleted]" ∧
    hashUsername (some "[deleted]") = "[deleted]" ∧
    anonymize none = "[deleted]" ∧ anonymize (some "") = "[deleted]" ∧
    anonymize (some "[deleted]") = "[deleted]" ∧
    hashUsername none = hashUsername (some "[deleted]") ∧
    anonymize none = anonymize (some "[deleted]") := by
  refine ⟨rfl, ?_, ?_, rfl, ?_, ?_, ?_, ?_⟩ <;> decide

/-! ## RateLimiter (reddit.js, part_006)

The mutable singleton is modelled as a state record plus an explicit wall
clock `now` in milliseconds; each source method that mutates `this` becomes a
function returning the new state. -/

/-- State of the `RateLimiter` singleton: `_remaining`, `_resetAt` (seconds),
`_used`, `_lastUpdated` (ms), `_blocked`, `_blockUntil` (ms). Persistence and
UI listeners are I/O collaborators and carry no quota information. -/
structure RL where
  remaining : Int
  resetAt : Nat
  used : Int
  lastUpdated : Nat
  blocked : Bool
  blockUntil : Nat
  deriving Repr, DecidableEq

/-- `MAX_REQUESTS_PER_MINUTE` of the part_006 limiter. -/
def RLmax : Int := 100

/-- The field initializers of the `RateLimiter` object literal (fresh state,
nothing restored from storage). -/
def rlInit : RL :=
  { remaining := 100, resetAt := 0, used := 0, lastUpdated := 0,
    blocked := false, blockUntil := 0 }

/-- The rate-limit response headers a fetch can carry: `X-RateLimit-Remaining`,
`X-RateLimit-Reset` (seconds until reset), `X-RateLimit-Used`, `Retry-After`.
`none` models an absent header. -/
structure HeaderInfo where
  hRemaining : Option Int
  hReset : Option Nat
  hUsed : Option Int
  retryAfter : Option Nat
  deriving Repr, DecidableEq

/-- A response with no rate-limit headers. -/
def hNone : HeaderInfo := ⟨none, none, none, none⟩

/-- `RateLimiter.updateFromHeaders`: adopt each authoritative value when the
header is present, otherwise keep the current estimate; always stamp
`_lastUpdated`. -/
def updateFromHeaders (rl : RL) (now : Nat) (h : HeaderInfo) : RL :=
  { rl with
    remaining := h.hRemaining.getD rl.remaining
    resetAt := match h.hReset with | some r => now / 1000 + r | none => rl.resetAt
    used := h.hUsed.getD rl.used
    lastUpdated := now }

/-- `RateLimiter.recordBlock(retryAfterSec)`: `(retryAfterSec || 60) * 1000`
(so a zero `retryAfterSec` falls back to 60 s), block until `now + duration`,
zero the optimistic remaining count. -/
def recordBlock (rl : RL) (now : Nat) (retryAfterSec : Nat) : RL :=
  { rl with
    blocked := true
    blockUntil := now + (if retryAfterSec = 0 then 60 else retryAfterSec) * 1000
    remaining := 0 }

/-- `RateLimiter.clearBlock`. -/
def clearBlock (rl : RL) : RL := { rl with blocked := false, blockUntil := 0 }

/-- `RateLimiter.isBlocked`: self-clears an expired block (`Date.now() >=
_blockUntil`) and reports the blocked flag; returns the possibly-updated
state alongside. `canProceed` of the spec is the negation of this bit. -/
def isBlocked (rl : RL) (now : Nat) : Bool × RL :=
  if rl.blocked = true ∧ rl.blockUntil ≤ now then (false, clearBlock rl)
  else (rl.blocked, rl)

/-- `RateLimiter.blockSecondsLeft`: `max 0 (ceil ((_blockUntil - now) / 1000))`
when blocked (`Nat` subtraction already clamps at 0), else 0. -/
def blockSecondsLeft (rl : RL) (now : Nat) : Nat :=
  if rl.blocked then (rl.blockUntil - now + 999) / 1000 else 0

/-- The object returned by `RateLimiter.getStatus`. -/
structure RLStatus where
  remaining : Int
  used : Int
  max : Int
  percent : Int
  blocked : Bool
  blockSecondsLeft : Nat
  resetAt : Nat
  deriving Repr, DecidableEq

/-- `RateLimiter.getStatus`: restores the quota when the reset window passed
(`now/1000 > _resetAt > 0`), then reports; the embedded `isBlocked()` call can
itself self-clear, which the returned state reflects. Since the maximum is
100, `Math.round((remaining / max) * 100)` is `remaining` itself. -/
def getStatus (rl : RL) (now : Nat) : RLStatus × RL :=
  let rl1 :=
    if rl.resetAt < now / 1000 ∧ 0 < rl.resetAt then
      { rl with remaining := RLmax, used := 0, blocked := false }
    else rl
  let b := (isBlocked rl1 now).1
  let rl2 := (isBlocked rl1 now).2
  ({ remaining := rl1.remaining, used := rl1.used, max := RLmax,
     percent := rl1.remaining, blocked := b,
     blockSecondsLeft := blockSecondsLeft rl2 now, resetAt := rl1.resetAt },
   rl2)

/-- C8 counterexample: a throttle event recorded with `retryAfter = 0` seconds
does not unblock at or after 0 elapsed seconds as the claim requires —
`recordBlock` maps 0 to its 60-second default, so the tracker still reports
blocked a full 59.999 s later, and only clears at 60 s. -/
theorem C8_zero_retryAfter_cx :
    (isBlocked (recordBlock rlInit 0 0) 0).1 = true ∧
    (isBlocked (recordBlock rlInit 0 0) 59999).1 = true ∧
    (isBlocked (recordBlock rlInit 0 0) 60000).1 = false := by
  decide

/-- C8 (amended): after a throttle event recorded with `retryAfter = R`
seconds for any `R ≥ 1`, `isBlocked` reports blocked at every instant strictly
before `R` seconds have elapsed and unblocked at every instant at or after,
and the blocked state self-clears inside that very `isBlocked` query, with no
further mutation call (for `R = 0`, `recordBlock` falls back to a 60-second
window — see the counterexample). -/
theorem C8_throttle_window (rl : RL) (now R t : Nat) (hR : 1 ≤ R) :
    (t < now + R * 1000 → (isBlocked (recordBlock rl now R) t).1 = true) ∧
    (now + R * 1000 ≤ t →
      (isBlocked (recordBlock rl now R) t).1 = false ∧
      ((isBlocked (recordBlock rl now R) t).2).blocked = false ∧
      ((isBlocked (recordBlock rl now R) t).2).blockUntil = 0) := by
  have hb : (recordBlock rl now R).blocked = true := rfl
  have hu : (recordBlock rl now R).blockUntil = now + R * 1000 := by
    simp [recordBlock, show R ≠ 0 by omega]
  constructor
  · intro ht
    have hcond : ¬((recordBlock rl now R).blocked = true ∧
        (recordBlock rl now R).blockUntil ≤ t) := by
      rintro ⟨_, hle⟩; rw [hu] at hle; omega
    simp only [isBlocked, if_neg hcond]
    exact hb
  · intro ht
    have hcond : (recordBlock rl now R).blocked = true ∧
        (recordBlock rl now R).blockUntil ≤ t := ⟨hb, by rw [hu]; omega⟩
    simp only [isBlocked, if_pos hcond]
    simp [clearBlock]

/-- Witness for `C8_throttle_window` at `rl = rlInit`, `now = 0`, `R = 30`:
blocked at 29.999 s, unblocked at exactly 30 s. -/
theorem C8_throttle_window_witness :
    1 ≤ 30 ∧
    (isBlocked (recordBlock rlInit 0 30) 29999).1 = true ∧
    (isBlocked (recordBlock rlInit 0 30) 30000).1 = false :=
  ⟨by decide,
   (C8_throttle_window rlInit 0 30 29999 (by decide)).1 (by decide),
   ((C8_throttle_window rlInit 0 30 30000 (by decide)).2 (by decide)).1⟩

/-! ## RedditClient (reddit.js, part_006)

The client's network access is modelled by an oracle `net : Nat → NetResp`,
indexed by the count of physical fetches issued so far; URL and query-string
construction select which upstream resource answers and are absorbed into the
oracle. Network latency is folded to zero: the clock advances only at the
explicit `setTimeout` delays of the source. -/

/-- JS `v || dflt` for an optional string: `undefined`, `null` and `""` are
falsy. -/
def jsOrStr (v : Option String) (dflt : String) : String :=
  match v with
  | none => dflt
  | some s => if s = "" then dflt else s

/-- Does `pat` occur at the head of `s`? (helper for `jsIncludes`). -/
def leadMatch : List Char → List Char → Bool
  | [], _ => true
  | _ :: _, [] => false
  | p :: ps, c :: cs => p = c && leadMatch ps cs

/-- Substring search on character lists (helper for `jsIncludes`). -/
def jsIncludesL (pat : List Char) : List Char → Bool
  | [] => pat.isEmpty
  | c :: rest => leadMatch pat (c :: rest) || jsIncludesL pat rest

/-- JS `s.includes(sub)`. -/
def jsIncludes (sub s : String) : Bool := jsIncludesL sub.data s.data

/-- JS `String.prototype.split(sep)` accumulator. -/
def jsSplitAux (sep : Char) : List Char → List Char → List String
  | [], cur => [⟨cur.reverse⟩]
  | c :: cs, cur =>
    if c = sep then (⟨cur.reverse⟩ : String) :: jsSplitAux sep cs []
    else jsSplitAux sep cs (c :: cur)

/-- JS `s.split(sep)` for a single-character separator. -/
def jsSplit (s : String) (sep : Char) : List String := jsSplitAux sep s.data []

/-- JS whitespace recognised by `String.prototype.trim` (the ASCII part). -/
def isJsSpace (c : Char) : Bool :=
  c = ' ' || c = '\t' || c = '\n' || c = '\r' || c = '\x0B' || c = '\x0C'

/-- JS `s.trim()`. -/
def jsTrim (s : String) : String :=
  ⟨((s.data.dropWhile isJsSpace).reverse.dropWhile isJsSpace).reverse⟩

/-- The `data` object of a raw `t3` listing child, with the members
`_parseListing` reads; `none` models an absent member. -/
structure RawPost where
  id : String
  name : String
  title : String
  author : String
  selftext : Option String
  score : Int
  upvote_ratio : Int
  num_comments : Int
  created_utc : Int
  url : String
  permalink : String
  is_self : Bool
  is_video : Bool
  link_flair_text : Option String
  subreddit : String
  domain : String
  over_18 : Bool
  deriving Repr, DecidableEq

/-- A listing child: `kind` plus its `data`. -/
structure RawChild where
  kind : String
  cdata : RawPost
  deriving Repr, DecidableEq

/-- A parsed comment as built by `_parseComments`, plus the `post_id`
back-reference `collect` adds when accumulating `allComments`. -/
structure Comment where
  id : String
  author : String
  body : String
  score : Int
  created_utc : Int
  depth : Nat
  parent_id : String
  post_id : Option String := none
  deriving Repr, DecidableEq

/-- A parsed post as built by `_parseListing`, plus the `subreddit` overwrite
and the optional `fetched_comments` member that `collect` adds. -/
structure Post where
  id : String
  reddit_id : String
  title : String
  author : String
  selftext : String
  score : Int
  upvote_ratio : Int
  num_comments : Int
  created_utc : Int
  url : String
  permalink : String
  is_self : Bool
  link_flair_text : String
  subreddit : String
  domain : String
  over_18 : Bool
  fetched_comments : Option (List Comment) := none
  deriving Repr, DecidableEq

mutual

/-- A node of the raw comment tree: `kind`, presence of `data`
(`hasData = false` models `!child.data`), the members `_parseComments` reads,
and the `replies.data.children` forest (absent replies ≡ empty forest, which
the traversal treats identically). -/
inductive RawCNode : Type where
  | mk (kind : String) (hasData : Bool) (id : String) (author : String)
       (body : Option String) (score : Int) (created_utc : Int)
       (parent_id : String) (rdepth : Option Nat) (replies : RawCForest)

/-- A list of raw comment children (mutually inductive with `RawCNode` so the
traversal below is structurally recursive). -/
inductive RawCForest : Type where
  | nil
  | cons (head : RawCNode) (tail : RawCForest)

end

/-- The parsed JSON payload of one fetch, shaped by which endpoint answered:
a listing object (whose `.data` may be absent), the `[post, comments]` pair of
a comment-tree request (`none` models a malformed or too-short array), or any
other object with an optional `.error` member. -/
inductive FetchData : Type where
  | listing (children : Option (List RawChild × Option String))
  | commentsArr (second : Option RawCForest)
  | plain (errMsg : Option String)

/-- JS `data.error` (undefined on shapes that lack the member). -/
def FetchData.errorField : FetchData → Option String
  | .plain e => e
  | _ => none

/-- One physical fetch outcome: a transport failure (the promise rejects), or
a response with status, rate-limit headers and parsed JSON body. -/
inductive NetResp : Type where
  | err
  | ok (status : Nat) (headers : HeaderInfo) (body : FetchData)

/-- The mutable world a client run threads: limiter state, the wall clock in
ms, the count of physical fetches issued, and the network oracle. -/
structure W where
  rl : RL
  time : Nat
  calls : Nat
  net : Nat → NetResp

/-- `MAX_RETRIES` of the part_006 client. -/
def MAX_RETRIES : Nat := 3

/-- The rate-limited message thrown by `fetch` (pre-check and post-backoff
re-check). -/
def rateLimitedWaitMsg (secs : Nat) : String :=
  "Rate limited by Reddit. Please wait " ++ jsNat secs ++ "s before trying again."

/-- The fallback message attached to a 429 response with no `error` body. -/
def retryingMsg (attempt : Nat) : String :=
  "Rate limited by Reddit. Retrying in " ++ jsNat (2 ^ (attempt + 1)) ++ "s..."

/-- The message thrown when every retry is exhausted and no error was kept. -/
def fetchFallbackMsg : String := "Rate limited by Reddit. Please wait and try again."

/-- The browser's transport-failure rejection message. -/
def transportFailMsg : String := "Failed to fetch"

/-- The message for a non-ok response whose body has no `error` member. -/
def upstreamMsg (status : Nat) : String := "Reddit returned status " ++ jsNat status

/-- The retry loop of `RedditClient.fetch`, one call per `fuel` step, carrying
the attempt index (for the exponential backoff `2^attempt` seconds and the
post-backoff block re-check) and the last kept error. A transport failure
(`NetResp.err`) propagates immediately — there is no `try`/`catch` around
`await fetch(...)` — and reaches neither `updateFromHeaders` nor any other
quota mutation. -/
def fetchGo : Nat → Nat → W → Option String → Except String FetchData × W
  | _, 0, w, lastError => (.error (lastError.getD fetchFallbackMsg), w)
  | attempt, fuel + 1, w, _lastError =>
    let w1 := if attempt = 0 then w else { w with time := w.time + 2 ^ attempt * 1000 }
    let bl := isBlocked w1.rl w1.time
    if attempt ≠ 0 ∧ bl.1 = true then
      (.error (rateLimitedWaitMsg (blockSecondsLeft w1.rl w1.time)), { w1 with rl := bl.2 })
    else
      let w2 := if attempt = 0 then w1 else { w1 with rl := bl.2 }
      match w2.net w2.calls with
      | .err => (.error transportFailMsg, { w2 with calls := w2.calls + 1 })
      | .ok status headers body =>
        let w3 := { w2 with calls := w2.calls + 1,
                            rl := updateFromHeaders w2.rl w2.time headers }
        if status = 429 then
          let resetSec := headers.retryAfter.getD 60
          let w4 := { w3 with rl := recordBlock w3.rl w3.time resetSec }
          fetchGo (attempt + 1) fuel w4 (some ((body.errorField).getD (retryingMsg attempt)))
        else if 200 ≤ status ∧ status < 300 then
          let w5 := if attempt = 0 then w3 else { w3 with rl := clearBlock w3.rl }
          (.ok body, w5)
        else
          (.error ((body.errorField).getD (upstreamMsg status)), w3)

/-- `RedditClient.fetch`: fail fast when the limiter is blocked, else run the
retry loop for `MAX_RETRIES + 1` attempts. -/
def fetch (w : W) : Except String FetchData × W :=
  let bl := isBlocked w.rl w.time
  if bl.1 = true then
    (.error (rateLimitedWaitMsg (blockSecondsLeft w.rl w.time)), w)
  else
    fetchGo 0 (MAX_RETRIES + 1) { w with rl := bl.2 } none

/-- `_parseListing`: map a `t3` child's `data` to a post. -/
def toPost (d : RawPost) : Post :=
  { id := d.id, reddit_id := d.name, title := d.title, author := d.author,
    selftext := jsOrStr d.selftext "", score := d.score,
    upvote_ratio := d.upvote_ratio, num_comments := d.num_comments,
    created_utc := d.created_utc, url := d.url,
    permalink := "https://reddit.com" ++ d.permalink, is_self := d.is_self,
    link_flair_text := jsOrStr d.link_flair_text "", subreddit := d.subreddit,
    domain := d.domain, over_18 := d.over_18 }

/-- `_parseListing`: filter to `t3` children, map to posts, keep the `after`
cursor; any malformed shape yields `([], none)`. -/
def parseListing : FetchData → List Post × Option String
  | .listing (some ld) =>
    ((ld.1.filter (fun c => c.kind == "t3")).map (fun c => toPost c.cdata), ld.2)
  | _ => ([], none)

mutual

/-- `_parseComments`' `processComment`: a `t1` child with data contributes its
comment followed (depth-first, pre-order) by its flattened replies at
`depth + 1`; anything else contributes nothing. -/
def parseCNode : RawCNode → Nat → List Comment
  | .mk kind hasData id author body score created parent _rdepth replies, depth =>
    if kind == "t1" && hasData then
      ({ id := id, author := author, body := jsOrStr body "", score := score,
         created_utc := created, depth := depth, parent_id := parent } : Comment)
        :: parseCForest replies (depth + 1)
    else []

/-- `_parseComments`' traversal of a children forest: each child in order,
siblings continuing after a skipped child. -/
def parseCForest : RawCForest → Nat → List Comment
  | .nil, _ => []
  | .cons c rest, depth => parseCNode c depth ++ parseCForest rest depth

end

/-- `getComments`' response handling: a well-formed `[post, comments]` array
yields `_parseComments(data[1])` starting at depth 0, anything else `[]`. -/
def parseComments : FetchData → List Comment
  | .commentsArr (some children) => parseCForest children 0
  | _ => []

/-- `RedditClient.getPosts`: one `fetch`, then `_parseListing`. Path and query
parameters only select the upstream resource and live in the oracle. -/
def getPosts (w : W) : Except String (List Post × Option String) × W :=
  match fetch w with
  | (.error e, w') => (.error e, w')
  | (.ok d, w') => (.ok (parseListing d), w')

/-- `RedditClient.searchPosts`: same fetch-then-parse shape as `getPosts`,
with search query parameters absorbed into the oracle. -/
def searchPosts (w : W) : Except String (List Post × Option String) × W :=
  match fetch w with
  | (.error e, w') => (.error e, w')
  | (.ok d, w') => (.ok (parseListing d), w')

/-- `RedditClient.getComments`: one `fetch`, then comment parsing. -/
def getComments (w : W) : Except String (List Comment) × W :=
  match fetch w with
  | (.error e, w') => (.error e, w')
  | (.ok d, w') => (.ok (parseComments d), w')

/-- The `collect` configuration object (defaults as destructured in source). -/
structure CollectConfig where
  subreddit : String
  sort : String := "hot"
  timeFilter : String := "week"
  limit : Nat := 25
  keyword : String := ""
  includeComments : Bool := false
  deriving Repr, DecidableEq

/-- The object `collect` resolves with: posts, flat comments, the request
config, and the completion timestamp (`new Date().toISOString()` is kept as
the epoch it renders). There is no status member. -/
structure CollectResult where
  posts : List Post
  comments : List Comment
  config : CollectConfig
  timestamp : Nat
  deriving Repr, DecidableEq

/-- `RedditClient._estimateRequests`: one listing request per target plus, if
comments are on, `limit` per target (no `trim` here, unlike `collect`). -/
def estimateRequests (config : CollectConfig) : Nat :=
  let n := ((jsSplit config.subreddit ',').filter (fun s => s != "")).length
  n + (if config.includeComments then config.limit * n else 0)

/-- The rate-limited message `collect` throws at its pre-flight check. -/
def collectBlockedMsg (secs : Nat) : String :=
  "Rate limited by Reddit. Please wait " ++ jsNat secs ++ " seconds before collecting."

/-- The per-target comment phase of `collect`: sequentially fetch each post's
tree with a 600 ms pacing delay; on success store it in `fetched_comments`
and append to `allComments` with the `post_id` back-reference; on an error
whose message contains `Rate limited`, stop the phase (`break`) leaving the
remaining posts untouched; on any other error record `fetched_comments = []`
and continue. Returns the updated posts, the harvested comments, and the
world. It never throws. -/
def commentLoop : List Post → W → List Post × List Comment × W
  | [], w => ([], [], w)
  | p :: rest, w =>
    match getComments w with
    | (.ok cs, w') =>
      let p' := { p with fetched_comments := some cs }
      let w2 := { w' with time := w'.time + 600 }
      let r := commentLoop rest w2
      (p' :: r.1, cs.map (fun c => { c with post_id := some p.id }) ++ r.2.1, r.2.2)
    | (.error e, w') =>
      if jsIncludes "Rate limited" e then
        (p :: rest, [], w')
      else
        let p' := { p with fetched_comments := some [] }
        let w2 := { w' with time := w'.time + 600 }
        let r := commentLoop rest w2
        (p' :: r.1, r.2.1, r.2.2)

/-- The per-target loop of `collect`: a listing fetch (search when a keyword
is set), the `subreddit` overwrite on each post, the optional comment phase,
and a 1000 ms pacing delay between targets when more than one was requested.
A listing-fetch error propagates, discarding everything accumulated. -/
def collectSubs (cfg : CollectConfig) (nsubs : Nat) :
    List String → W → Except String (List Post × List Comment) × W
  | [], w => (.ok ([], []), w)
  | sub :: rest, w =>
    match (if cfg.keyword != "" then searchPosts w else getPosts w) with
    | (.error e, w') => (.error e, w')
    | (.ok pr, w') =>
      let posts := pr.1.map (fun p => { p with subreddit := sub })
      let step := if cfg.includeComments then commentLoop posts w' else (posts, [], w')
      let w2 := step.2.2
      let w3 := if nsubs > 1 then { w2 with time := w2.time + 1000 } else w2
      match collectSubs cfg nsubs rest w3 with
      | (.error e, wf) => (.error e, wf)
      | (.ok acc, wf) => (.ok (step.1 ++ acc.1, step.2.1 ++ acc.2), wf)

/-- `RedditClient.collect`: pre-flight block check (throwing with the seconds
left), low-quota warning (a 1500 ms pause, via `getStatus` which can restore
an expired window), then the sequential per-target loop. The resolved value
carries no status member. -/
def collect (cfg : CollectConfig) (w : W) : Except String CollectResult × W :=
  let bl := isBlocked w.rl w.time
  if bl.1 = true then
    (.error (collectBlockedMsg (blockSecondsLeft w.rl w.time)), w)
  else
    let w0 := { w with rl := bl.2 }
    let st := getStatus w0.rl w0.time
    let w1 := { w0 with rl := st.2 }
    let w2 :=
      if st.1.remaining < (estimateRequests cfg : Int) ∧ st.1.remaining < 20 then
        { w1 with time := w1.time + 1500 }
      else w1
    let subs := ((jsSplit cfg.subreddit ',').map jsTrim).filter (fun s => s != "")
    match collectSubs cfg subs.length subs w2 with
    | (.error e, wf) => (.error e, wf)
    | (.ok acc, wf) =>
      (.ok { posts := acc.1, comments := acc.2, config := cfg, timestamp := wf.time }, wf)

/-! ## C7 — fail fast when pre-blocked -/

/-- C7: when the quota tracker is blocked as a collection starts, `collect`
fails fast with the rate-limited error carrying the seconds remaining in the
cooldown, the world is untouched, and in particular zero network calls are
made. -/
theorem C7_preblocked_fail_fast (cfg : CollectConfig) (w : W)
    (hb : (isBlocked w.rl w.time).1 = true) :
    collect cfg w = (.error (collectBlockedMsg (blockSecondsLeft w.rl w.time)), w) ∧
    (collect cfg w).2.calls = w.calls := by
  have h1 : collect cfg w =
      (.error (collectBlockedMsg (blockSecondsLeft w.rl w.time)), w) := by
    simp only [collect, hb, if_true]
  exact ⟨h1, by rw [h1]⟩

/-- A world whose tracker was throttled for 30 s at time 0, observed at time
0 (still inside the cooldown). -/
def wBlocked : W :=
  { rl := recordBlock rlInit 0 30, time := 0, calls := 0, net := fun _ => .err }

/-- Witness for `C7_preblocked_fail_fast` on `wBlocked`: the message carries
the 30 s remaining and no call is made. -/
theorem C7_preblocked_fail_fast_witness :
    (isBlocked wBlocked.rl wBlocked.time).1 = true ∧
    collect { subreddit := "test" } wBlocked =
      (.error "Rate limited by Reddit. Please wait 30 seconds before collecting.",
       wBlocked) ∧
    wBlocked.calls = 0 := by
  refine ⟨by decide, ?_, rfl⟩
  have h := (C7_preblocked_fail_fast { subreddit := "test" } wBlocked (by decide)).1
  have hm : collectBlockedMsg (blockSecondsLeft wBlocked.rl wBlocked.time) =
      "Rate limited by Reddit. Please wait 30 seconds before collecting." := by decide
  rw [hm] at h
  exact h

/-! ## C4 — transport failures are not retried -/

/-- A run against a host that is unreachable on every attempt. -/
def wTransport : W := { rl := rlInit, time := 0, calls := 0, net := fun _ => .err }

/-- A run that is throttled (429, `Retry-After: 1`) on every attempt. -/
def wThrottle : W :=
  { rl := rlInit, time := 0, calls := 0,
    net := fun _ => .ok 429 ⟨none, none, none, some 1⟩ (.plain none) }

/-- C4 counterexample: transport failures do not receive the retry treatment
throttling receives. Against an all-throttling upstream, `fetch` issues 4
network attempts (initial + `MAX_RETRIES` with exponential backoff); against
an unreachable upstream it gives up after a single attempt, propagating the
transport error — and, as the claim's second half correctly says, without
touching the quota state. -/
theorem C4_transport_vs_throttle_cx :
    (fetch wTransport).1 = .error transportFailMsg ∧
    (fetch wTransport).2.calls = 1 ∧
    (fetch wTransport).2.rl = rlInit ∧
    (fetch wThrottle).2.calls = 4 := by
  refine ⟨rfl, by decide, by decide, by decide⟩

/-- An unblocked tracker passes `isBlocked` unchanged. -/
theorem isBlocked_false (rl : RL) (now : Nat) (hb : rl.blocked = false) :
    isBlocked rl now = (false, rl) := by
  unfold isBlocked
  rw [if_neg, hb]
  rintro ⟨h1, _⟩
  rw [hb] at h1
  exact Bool.false_ne_true h1

/-- `fetch` against an unreachable host: one attempt, immediate propagation,
no state change beyond the call counter (helper shared by several claims). -/
theorem fetchTransportEq (w : W) (hb : w.rl.blocked = false)
    (hn : w.net w.calls = .err) :
    fetch w = (.error transportFailMsg, { w with calls := w.calls + 1 }) := by
  simp only [fetch, isBlocked_false w.rl w.time hb, MAX_RETRIES, fetchGo]
  simp [hn]

/-- C4 (amended): a transport failure is never retried — `fetch` propagates
the browser's rejection immediately after the one failed attempt — and it
never mutates the quota tracker's state (the world changes only by the call
counter). -/
theorem C4_transport_no_retry (w : W) (hb : w.rl.blocked = false)
    (hn : w.net w.calls = .err) :
    fetch w = (.error transportFailMsg, { w with calls := w.calls + 1 }) :=
  fetchTransportEq w hb hn

/-- Witness for `C4_transport_no_retry` on `wTransport`. -/
theorem C4_transport_no_retry_witness :
    wTransport.rl.blocked = false ∧ wTransport.net wTransport.calls = .err ∧
    fetch wTransport =
      (.error transportFailMsg, { wTransport with calls := wTransport.calls + 1 }) :=
  ⟨rfl, rfl, C4_transport_no_retry wTransport rfl rfl⟩

/-! ## Concrete collection scenarios (C1, C5)

Oracle families for runs against a stub source: a listing of `n` generic
posts on the first call, then per-post comment-tree responses. -/

/-- The `i`-th stub raw post of a listing. -/
def mkRawPost (i : Nat) : RawPost :=
  { id := "p" ++ jsNat i, name := "t3_p" ++ jsNat i, title := "title " ++ jsNat i,
    author := "u" ++ jsNat i, selftext := some "body", score := 1,
    upvote_ratio := 1, num_comments := 1, created_utc := 0,
    url := "https://example/", permalink := "/r/aaa/p" ++ jsNat i,
    is_self := true, is_video := false, link_flair_text := none,
    subreddit := "aaa", domain := "self.aaa", over_18 := false }

/-- The `i`-th stub listing child (`kind = "t3"`). -/
def mkChild (i : Nat) : RawChild := { kind := "t3", cdata := mkRawPost i }

/-- A 200 listing response carrying `n` stub posts and no `after` cursor. -/
def listingResp (n : Nat) : NetResp :=
  .ok 200 hNone (.listing (some ((List.range n).map mkChild, none)))

/-- A stub `t1` comment child. -/
def t1child : RawCNode := .mk "t1" true "c0" "cu" (some "hello") 2 7 "t3_p0" (some 0) .nil

/-- A 200 comment-tree response carrying the single stub comment. -/
def commentOkResp : NetResp := .ok 200 hNone (.commentsArr (some (.cons t1child .nil)))

/-- The stub comment as `getComments` parses it. -/
def theComment : Comment :=
  { id := "c0", author := "cu", body := "hello", score := 2, created_utc := 7,
    depth := 0, parent_id := "t3_p0" }

/-- A 429 response with `Retry-After: 60` and no error body. -/
def throttle60Resp : NetResp := .ok 429 ⟨none, none, none, some 60⟩ (.plain none)

/-- Oracle for the C1 counterexample: the first target's listing succeeds with
2 posts, every later call is throttled with a 60 s cooldown. -/
def netC1 : Nat → NetResp := fun i => if i = 0 then listingResp 2 else throttle60Resp

/-- The C1 counterexample world. -/
def wC1 : W := { rl := rlInit, time := 0, calls := 0, net := netC1 }

/-- The C1 counterexample request: two targets, listings only. -/
def cfgC1 : CollectConfig := { subreddit := "aaa,bbb" }

/-- C1 counterexample: a quota-exceeded (429 / rate-limit) error raised
mid-run — here while fetching the second target's listing, after the first
target already yielded 2 posts (both physical calls were made) — makes
`collect` reject with the rate-limited error instead of returning the posts
gathered so far in a PARTIAL collection: the gathered posts are discarded. -/
theorem C1_quota_midrun_cx :
    (collect cfgC1 wC1).1 =
      .error "Rate limited by Reddit. Please wait 58s before trying again." ∧
    (collect cfgC1 wC1).2.calls = 2 := by
  refine ⟨rfl, by decide⟩

/-- `fetch` of a 200 response: one attempt, headers folded into the tracker. -/
theorem fetchOk200Eq (w : W) (hdr : HeaderInfo) (body : FetchData)
    (hb : w.rl.blocked = false) (hn : w.net w.calls = .ok 200 hdr body) :
    fetch w = (.ok body,
      { w with calls := w.calls + 1, rl := updateFromHeaders w.rl w.time hdr }) := by
  simp only [fetch, isBlocked_false w.rl w.time hb, MAX_RETRIES, fetchGo]
  simp [hn]

/-- Tracker state right after a 60 s throttle recorded at `now` (on a
header-less 429 response). -/
def throttledRL (rl : RL) (now : Nat) : RL :=
  { rl with lastUpdated := now, blocked := true, blockUntil := now + 60000,
            remaining := 0 }

/-- `fetch` of a 429 with `Retry-After: 60`: the throttle is recorded, the
2 s first backoff elapses far inside the 60 s window, and the post-backoff
re-check throws the rate-limited message with 58 s left. -/
theorem fetchThrottle60Eq (w : W) (hb : w.rl.blocked = false)
    (hn : w.net w.calls = throttle60Resp) :
    fetch w = (.error (rateLimitedWaitMsg 58),
      { w with calls := w.calls + 1, time := w.time + 2000,
               rl := throttledRL w.rl w.time }) := by
  simp only [fetch, isBlocked_false w.rl w.time hb, MAX_RETRIES, fetchGo]
  simp [hn, throttle60Resp, updateFromHeaders, recordBlock, FetchData.errorField,
    isBlocked, blockSecondsLeft, throttledRL]

/-- Oracle for single-target runs that get throttled as soon as the comment
phase starts: the listing succeeds with `n` posts, every later call is a 429
with a 60 s cooldown. -/
def netA (n : Nat) : Nat → NetResp := fun i => if i = 0 then listingResp n else throttle60Resp

/-- World for the `netA` scenario. -/
def wA (n : Nat) : W := { rl := rlInit, time := 0, calls := 0, net := netA n }

/-- Single-target request with comments on. -/
def cfgA : CollectConfig := { subreddit := "aaa", includeComments := true }

/-- The posts the stub listing parses to (with the `subreddit` overwrite). -/
def expListingPosts (n : Nat) : List Post :=
  (List.range n).map (fun i => { toPost (mkRawPost i) with subreddit := "aaa" })

/-- The stub listing filters and parses to the `n` stub posts. -/
theorem parseListing_stub (n : Nat) :
    parseListing (.listing (some ((List.range n).map mkChild, none))) =
      ((List.range n).map (fun i => toPost (mkRawPost i)), none) := by
  simp only [parseListing]
  have hf : ((List.range n).map mkChild).filter (fun c => c.kind == "t3") =
      (List.range n).map mkChild := by
    apply List.filter_eq_self.mpr
    intro a ha
    obtain ⟨i, _, rfl⟩ := List.mem_map.mp ha
    rfl
  rw [hf, List.map_map]
  rfl

/-- C1 (amended): a quota-exceeded error raised during the comment phase does
halt further fetching and `collect` resolves with everything gathered so far
— but the resolved object carries no status member at all (`CollectResult`
has no such field), rather than `status = PARTIAL`; and (see the
counterexample) a quota error during a listing fetch propagates as an
exception instead. Here: the listing yields `n` posts, the first comment
fetch is throttled, the run stops after exactly 2 physical calls and resolves
with all `n` posts, none of them owning comments. -/
theorem C1_quota_comment_phase (n : Nat) (hn : 0 < n) :
    (collect cfgA (wA n)).1 =
      .ok { posts := expListingPosts n, comments := [], config := cfgA,
            timestamp := 2000 } ∧
    (collect cfgA (wA n)).2.calls = 2 := by
  obtain ⟨m, rfl⟩ : ∃ m, n = m + 1 := ⟨n - 1, by omega⟩
  have hfetch0 : fetch (wA (m + 1)) =
      (.ok (.listing (some ((List.range (m + 1)).map mkChild, none))),
       { wA (m + 1) with calls := 1 }) := by
    have h := fetchOk200Eq (wA (m + 1)) hNone
      (.listing (some ((List.range (m + 1)).map mkChild, none))) rfl rfl
    simpa [updateFromHeaders, hNone, wA, rlInit] using h
  have hgetPosts : getPosts (wA (m + 1)) =
      (.ok ((List.range (m + 1)).map (fun i => toPost (mkRawPost i)), none),
       { wA (m + 1) with calls := 1 }) := by
    simp [getPosts, hfetch0, parseListing_stub]
  have hfetch1 : fetch { wA (m + 1) with calls := 1 } =
      (.error (rateLimitedWaitMsg 58),
       { wA (m + 1) with calls := 2, time := 2000, rl := throttledRL rlInit 0 }) := by
    have h := fetchThrottle60Eq { wA (m + 1) with calls := 1 } rfl rfl
    simpa [wA] using h
  have hgc : getComments { wA (m + 1) with calls := 1 } =
      (.error (rateLimitedWaitMsg 58),
       { wA (m + 1) with calls := 2, time := 2000, rl := throttledRL rlInit 0 }) := by
    simp [getComments, hfetch1]
  have hsubs : ((jsSplit cfgA.subreddit ',').map jsTrim).filter (fun s => s != "") =
      ["aaa"] := by decide
  have hposts : ((List.range (m + 1)).map (fun i => toPost (mkRawPost i))).map
      (fun p => { p with subreddit := "aaa" }) = expListingPosts (m + 1) := by
    simp only [expListingPosts, List.map_map]
    rfl
  have hcl : commentLoop (expListingPosts (m + 1)) { wA (m + 1) with calls := 1 } =
      (expListingPosts (m + 1), [],
       { wA (m + 1) with calls := 2, time := 2000, rl := throttledRL rlInit 0 }) := by
    rw [show expListingPosts (m + 1) =
      { toPost (mkRawPost 0) with subreddit := "aaa" } ::
        ((List.range m).map Nat.succ).map
          (fun i => { toPost (mkRawPost i) with subreddit := "aaa" }) from by
      simp [expListingPosts, List.range_succ_eq_map, List.map_map]]
    simp only [commentLoop, hgc]
    rw [if_pos (by decide)]
  have hcs : collectSubs cfgA 1 ["aaa"] (wA (m + 1)) =
      (.ok (expListingPosts (m + 1), []),
       { wA (m + 1) with calls := 2, time := 2000, rl := throttledRL rlInit 0 }) := by
    simp only [collectSubs]
    rw [show (cfgA.keyword != "") = false from rfl]
    simp only [Bool.false_eq_true, if_false, hgetPosts]
    rw [if_pos (show cfgA.includeComments = true from rfl), hposts, hcl]
    simp [collectSubs]
  have hcollect : collect cfgA (wA (m + 1)) =
      (.ok { posts := expListingPosts (m + 1), comments := [], config := cfgA,
             timestamp := 2000 },
       { wA (m + 1) with calls := 2, time := 2000, rl := throttledRL rlInit 0 }) := by
    have hrl : (wA (m + 1)).rl = rlInit := rfl
    have htime : (wA (m + 1)).time = 0 := rfl
    have h1 : isBlocked rlInit 0 = (false, rlInit) := by decide
    have h2 : getStatus rlInit 0 =
        ({ remaining := 100, used := 0, max := 100, percent := 100, blocked := false,
           blockSecondsLeft := 0, resetAt := 0 }, rlInit) := by decide
    have h3 : ¬((100 : Int) < (estimateRequests cfgA : Int) ∧ (100 : Int) < 20) := by
      decide
    simp only [collect, hrl, htime, h1, h2, hsubs]
    rw [if_neg h3]
    simp only [Bool.false_eq_true, if_false]
    rw [show ({ rl := rlInit, time := 0, calls := (wA (m + 1)).calls,
                net := (wA (m + 1)).net } : W) = wA (m + 1) from rfl]
    rw [show (["aaa"] : List String).length = 1 from rfl]
    rw [hcs]
  rw [hcollect]
  exact ⟨rfl, rfl⟩

/-- Witness for `C1_quota_comment_phase` at `n = 10`. -/
theorem C1_quota_comment_phase_witness :
    0 < 10 ∧
    (collect cfgA (wA 10)).1 =
      .ok { posts := expListingPosts 10, comments := [], config := cfgA,
            timestamp := 2000 } ∧
    (collect cfgA (wA 10)).2.calls = 2 :=
  ⟨by decide, (C1_quota_comment_phase 10 (by decide)).1,
   (C1_quota_comment_phase 10 (by decide)).2⟩

/-! ## C5 — one failing comment fetch does not abort the run -/

/-- Oracle for a single-target run with comments where exactly the comment
fetch of the post at position `k` (0-based; physical call `k + 1`) fails with
a transport error: call 0 is the listing with `n` posts, all other comment
fetches succeed with one comment. -/
def netC5 (n k : Nat) : Nat → NetResp := fun i =>
  if i = 0 then listingResp n else if i = k + 1 then .err else commentOkResp

/-- World for the `netC5` scenario. -/
def wC5 (n k : Nat) : W := { rl := rlInit, time := 0, calls := 0, net := netC5 n k }

/-- The posts of the `netC5` run after the comment phase: walking the list
from physical call `c`, the post whose fetch index hits `fail` gets
`fetched_comments = []`, every other post gets the stub comment. -/
def expPostsC5 (fail : Nat) : Nat → List Post → List Post
  | _, [] => []
  | c, p :: ps =>
    { p with fetched_comments := some (if c = fail then [] else [theComment]) }
      :: expPostsC5 fail (c + 1) ps

/-- The flat `allComments` of the `netC5` run (with `post_id` added). -/
def expComsC5 (fail : Nat) : Nat → List Post → List Comment
  | _, [] => []
  | c, p :: ps =>
    (if c = fail then [] else [{ theComment with post_id := some p.id }])
      ++ expComsC5 fail (c + 1) ps

/-- `commentLoop` under the `netC5` oracle: every post is processed (one
physical call each), the failing one records an empty comment list, the loop
never throws, and the tracker stays unblocked. -/
theorem commentLoopC5 (n k : Nat) : ∀ (ps : List Post) (w : W),
    w.net = netC5 n k → w.rl.blocked = false → 1 ≤ w.calls →
    ∃ w', commentLoop ps w =
        (expPostsC5 (k + 1) w.calls ps, expComsC5 (k + 1) w.calls ps, w') ∧
      w'.calls = w.calls + ps.length ∧ w'.rl.blocked = false ∧ w'.net = w.net := by
  intro ps
  induction ps with
  | nil =>
    intro w _ hb _
    exact ⟨w, rfl, by simp, hb, rfl⟩
  | cons p rest ih =>
    intro w hnet hb hc
    by_cases hk : w.calls = k + 1
    · have hfe : fetch w = (.error transportFailMsg, { w with calls := w.calls + 1 }) := by
        apply fetchTransportEq w hb
        rw [hnet, netC5]
        simp [hk]
      have hgc : getComments w =
          (.error transportFailMsg, { w with calls := w.calls + 1 }) := by
        simp [getComments, hfe]
      obtain ⟨w', hloop, hcalls, hb', hnet'⟩ :=
        ih { w with calls := w.calls + 1, time := w.time + 600 }
          (by simpa using hnet) (by simpa using hb) (by simp)
      refine ⟨w', ?_, by simpa [hcalls] using by omega, hb', by simpa using hnet'⟩
      simp only [commentLoop, hgc,
        show jsIncludes "Rate limited" transportFailMsg = false from by decide,
        Bool.false_eq_true, if_false]
      rw [show ({ w with calls := w.calls + 1, time := w.time + 600 } : W) =
        { w with calls := w.calls + 1, time := w.time + 600 } from rfl]
      simp only [hloop]
      simp only [expPostsC5, expComsC5, if_pos hk]
      simp
    · have hne : w.calls ≠ 0 := by omega
      have hfe : fetch w = (.ok (.commentsArr (some (.cons t1child .nil))),
          { w with calls := w.calls + 1,
                   rl := updateFromHeaders w.rl w.time hNone }) := by
        apply fetchOk200Eq w hNone _ hb
        rw [hnet, netC5]
        simp [hne, hk, commentOkResp]
      have hgc : getComments w = (.ok [theComment],
          { w with calls := w.calls + 1,
                   rl := updateFromHeaders w.rl w.time hNone }) := by
        simp only [getComments, hfe]
        rw [show parseComments (.commentsArr (some (.cons t1child .nil))) =
          [theComment] from by decide]
      obtain ⟨w', hloop, hcalls, hb', hnet'⟩ :=
        ih { w with calls := w.calls + 1,
                    rl := updateFromHeaders w.rl w.time hNone,
                    time := w.time + 600 }
          (by simpa using hnet) (by simpa [updateFromHeaders] using hb) (by simp)
      refine ⟨w', ?_, by simpa [hcalls] using by omega, hb', by simpa using hnet'⟩
      simp only [commentLoop, hgc]
      simp only [hloop]
      simp only [expPostsC5, expComsC5, if_neg hk]
      simp

/-- `expPostsC5` preserves the post count. -/
theorem expPostsC5_length (f : Nat) : ∀ (ps : List Post) (c : Nat),
    (expPostsC5 f c ps).length = ps.length := by
  intro ps
  induction ps with
  | nil => intro c; rfl
  | cons p rest ih => intro c; simp [expPostsC5, ih]

/-- Pointwise view of `expPostsC5`. -/
theorem expPostsC5_getElem? (f : Nat) : ∀ (ps : List Post) (c j : Nat),
    (expPostsC5 f c ps)[j]? = (ps[j]?).map
      (fun p => { p with
        fetched_comments := some (if c + j = f then [] else [theComment]) }) := by
  intro ps
  induction ps with
  | nil => intro c j; simp [expPostsC5]
  | cons p rest ih =>
    intro c j
    cases j with
    | zero => simp [expPostsC5]
    | succ j' =>
      simp only [expPostsC5, List.getElem?_cons_succ, ih (c + 1) j']
      rw [show c + 1 + j' = c + (j' + 1) from by omega]

/-- C5 (amended): with comments on, a transport failure on the comment fetch
of the post at position `k` (of `n`) does not abort the run — `collect`
resolves with all `n` posts, the failing post's `fetched_comments` recorded
empty, every other post's comments fetched (all `n` comment fetches are
attempted) — but the resolved object carries no status member at all
(`CollectResult` has no such field), rather than `status = PARTIAL`; the
docs-variant UI even stores the run as `completed` (see the counterexample). -/
theorem C5_comment_failure_isolated (n k : Nat) (hk : k < n) :
    ∃ r w', collect cfgA (wC5 n k) = (.ok r, w') ∧
      r.posts = expPostsC5 (k + 1) 1 (expListingPosts n) ∧
      r.posts.length = n ∧
      (r.posts[k]?).map Post.fetched_comments = some (some []) ∧
      (∀ j, j < n → j ≠ k →
        (r.posts[j]?).map Post.fetched_comments = some (some [theComment])) ∧
      r.comments = expComsC5 (k + 1) 1 (expListingPosts n) ∧
      w'.calls = n + 1 := by
  obtain ⟨w', hloop, hcalls, hb', hnet'⟩ :=
    commentLoopC5 n k (expListingPosts n) { wC5 n k with calls := 1 } rfl rfl (by simp)
  have hfetch0 : fetch (wC5 n k) =
      (.ok (.listing (some ((List.range n).map mkChild, none))),
       { wC5 n k with calls := 1 }) := by
    have h := fetchOk200Eq (wC5 n k) hNone
      (.listing (some ((List.range n).map mkChild, none))) rfl
      (by rw [show (wC5 n k).net (wC5 n k).calls = netC5 n k 0 from rfl]
          simp [netC5, listingResp])
    simpa [updateFromHeaders, hNone, wC5, rlInit] using h
  have hgetPosts : getPosts (wC5 n k) =
      (.ok ((List.range n).map (fun i => toPost (mkRawPost i)), none),
       { wC5 n k with calls := 1 }) := by
    simp [getPosts, hfetch0, parseListing_stub]
  have hposts : ((List.range n).map (fun i => toPost (mkRawPost i))).map
      (fun p => { p with subreddit := "aaa" }) = expListingPosts n := by
    simp only [expListingPosts, List.map_map]
    rfl
  have hsubs : ((jsSplit cfgA.subreddit ',').map jsTrim).filter (fun s => s != "") =
      ["aaa"] := by decide
  have hcs : collectSubs cfgA 1 ["aaa"] (wC5 n k) =
      (.ok (expPostsC5 (k + 1) 1 (expListingPosts n),
            expComsC5 (k + 1) 1 (expListingPosts n)), w') := by
    simp only [collectSubs]
    rw [show (cfgA.keyword != "") = false from rfl]
    simp only [Bool.false_eq_true, if_false, hgetPosts]
    rw [if_pos (show cfgA.includeComments = true from rfl), hposts]
    rw [show commentLoop (expListingPosts n) { wC5 n k with calls := 1 } =
      (expPostsC5 (k + 1) 1 (expListingPosts n),
       expComsC5 (k + 1) 1 (expListingPosts n), w') from hloop]
    simp [collectSubs]
  have hcollect : collect cfgA (wC5 n k) =
      (.ok { posts := expPostsC5 (k + 1) 1 (expListingPosts n),
             comments := expComsC5 (k + 1) 1 (expListingPosts n),
             config := cfgA, timestamp := w'.time }, w') := by
    have hrl : (wC5 n k).rl = rlInit := rfl
    have htime : (wC5 n k).time = 0 := rfl
    have h1 : isBlocked rlInit 0 = (false, rlInit) := by decide
    have h2 : getStatus rlInit 0 =
        ({ remaining := 100, used := 0, max := 100, percent := 100, blocked := false,
           blockSecondsLeft := 0, resetAt := 0 }, rlInit) := by decide
    have h3 : ¬((100 : Int) < (estimateRequests cfgA : Int) ∧ (100 : Int) < 20) := by
      decide
    simp only [collect, hrl, htime, h1, h2, hsubs]
    rw [if_neg h3]
    simp only [Bool.false_eq_true, if_false]
    rw [show ({ rl := rlInit, time := 0, calls := (wC5 n k).calls,
                net := (wC5 n k).net } : W) = wC5 n k from rfl]
    rw [show (["aaa"] : List String).length = 1 from rfl]
    rw [hcs]
  refine ⟨_, w', hcollect, rfl, ?_, ?_, ?_, rfl, ?_⟩
  · simp [expPostsC5_length, expListingPosts]
  · rw [expPostsC5_getElem?]
    simp only [expListingPosts, List.getElem?_map, List.getElem?_range hk]
    simp [show 1 + k = k + 1 from by omega]
  · intro j hj hjk
    rw [expPostsC5_getElem?]
    simp only [expListingPosts, List.getElem?_map, List.getElem?_range hj]
    simp [show ¬(1 + j = k + 1) from by omega]
  · have hl : (expListingPosts n).length = n := by simp [expListingPosts]
    rw [hl] at hcalls
    simp at hcalls
    omega

/-- Witness for `C5_comment_failure_isolated` at `n = 10`, `k = 3` (the 4th
of 10 posts). -/
theorem C5_comment_failure_isolated_witness :
    3 < 10 ∧
    (∃ r w', collect cfgA (wC5 10 3) = (.ok r, w') ∧
      r.posts = expPostsC5 4 1 (expListingPosts 10) ∧
      r.posts.length = 10 ∧
      (r.posts[3]?).map Post.fetched_comments = some (some []) ∧
      (∀ j, j < 10 → j ≠ 3 →
        (r.posts[j]?).map Post.fetched_comments = some (some [theComment])) ∧
      r.comments = expComsC5 4 1 (expListingPosts 10) ∧
      w'.calls = 11) :=
  ⟨by decide, C5_comment_failure_isolated 10 3 (by decide)⟩

/-! ## Thresh.Reddit (static site, part_008) and its collector (docs/js/app.js)

The docs-variant scraper: a sliding-window rate limiter, `fetchJSON` through
a CORS-proxy chain, `getPosts`/`getComments`, and the `doCollection` handler
that assembles and stores the collection. One `fetchJSON` call is one logical
Reddit request; the proxy-fallback chain retries the *same* request, so its
internal attempts are absorbed into the oracle, which is indexed by the
request count and also receives the `limit` query parameter the client sends. -/

/-- JS `s || dflt` for a plain string (only `""` is falsy). -/
def jsOrS (s dflt : String) : String := if s = "" then dflt else s

/-- A post as parsed by part_008's `getPosts` (object key order preserved). -/
structure Post8 where
  id : String
  title : String
  author : String
  score : Int
  upvoteRatio : Int
  numComments : Int
  created : Int
  selftext : String
  url : String
  permalink : String
  isVideo : Bool
  isSelf : Bool
  flair : String
  subreddit : String
  deriving Repr, DecidableEq

/-- A comment as parsed by part_008's `getComments` (key order preserved;
`depth` is read from the payload, not computed). -/
structure Comment8 where
  id : String
  author : String
  body : String
  score : Int
  created : Int
  parentId : String
  depth : Nat
  deriving Repr, DecidableEq

/-- The docs-variant world: the wall clock, the logical request count, the
sliding-window limiter's timestamp list, and the network oracle (request
index, sent `limit` parameter). -/
structure W8 where
  time : Nat
  calls : Nat
  timestamps : List Nat
  net : Nat → Nat → Except String FetchData

/-- `MAX_PER_MIN` of the part_008 sliding-window limiter. -/
def MAX_PER_MIN : Nat := 10

/-- The limiter's window filter (`now - t < 60000`). -/
def windowFilter (ts : List Nat) (now : Nat) : List Nat :=
  ts.filter (fun t => now - t < 60000)

/-- part_008 `fetchJSON`: refuse before the network when the window is full,
otherwise make one logical request (the oracle absorbs the direct attempt and
the proxy chain) and record its timestamp on success. -/
def fetchJSON8 (limitParam : Nat) (w : W8) : Except String FetchData × W8 :=
  let ts := windowFilter w.timestamps w.time
  if MAX_PER_MIN ≤ ts.length then
    (.error ("Rate limit reached (" ++ jsNat ts.length ++ "/" ++ jsNat MAX_PER_MIN ++
      " in the last minute). Wait a few seconds and try again."),
     { w with timestamps := ts })
  else
    match w.net w.calls limitParam with
    | .error e => (.error e, { w with calls := w.calls + 1, timestamps := ts })
    | .ok d => (.ok d, { w with calls := w.calls + 1, timestamps := ts ++ [w.time] })

/-- part_008 `getPosts`' limit clamp: `Math.min(limit || 25, 100)`. -/
def effectiveLimit (limit : Nat) : Nat := min (if limit = 0 then 25 else limit) 100

/-- part_008 `getPosts`' child mapping (no `kind` filter). -/
def toPost8 (d : RawPost) : Post8 :=
  { id := d.id, title := d.title, author := jsOrS d.author "[deleted]",
    score := d.score, upvoteRatio := d.upvote_ratio, numComments := d.num_comments,
    created := d.created_utc, selftext := jsOrStr d.selftext "", url := d.url,
    permalink := "https://www.reddit.com" ++ d.permalink, isVideo := d.is_video,
    isSelf := d.is_self, flair := jsOrStr d.link_flair_text "",
    subreddit := d.subreddit }

/-- part_008 `getPosts`: clamp the limit, issue exactly one `fetchJSON`, map
the children. There is no pagination loop and the `after` cursor is never
read, whatever the requested limit. -/
def getPosts8 (limit : Nat) (w : W8) : Except String (List Post8) × W8 :=
  match fetchJSON8 (effectiveLimit limit) w with
  | (.error e, w') => (.error e, w')
  | (.ok d, w') =>
    match d with
    | .listing (some ld) => (.ok (ld.1.map (fun c => toPost8 c.cdata)), w')
    | _ => (.ok [], w')

mutual

/-- part_008 `getComments`' `flatten`: `t1` children only, `depth` read from
the payload (`d.depth || 0`), replies flattened after the comment. -/
def flatten8Node : RawCNode → List Comment8
  | .mk kind _hasData id author body score created parent rdepth replies =>
    if kind == "t1" then
      ({ id := id, author := jsOrS author "[deleted]", body := jsOrStr body "",
         score := score, created := created, parentId := parent,
         depth := rdepth.getD 0 } : Comment8) :: flatten8Forest replies
    else []

/-- `flatten` over a children list. -/
def flatten8Forest : RawCForest → List Comment8
  | .nil => []
  | .cons c rest => flatten8Node c ++ flatten8Forest rest

end

/-- part_008 `getComments`: one `fetchJSON` (with its own clamped limit,
50 at the docs-UI call site), then flatten; malformed pairs yield `[]`. -/
def getComments8 (w : W8) : Except String (List Comment8) × W8 :=
  match fetchJSON8 50 w with
  | (.error e, w') => (.error e, w')
  | (.ok d, w') =>
    match d with
    | .commentsArr (some children) => (.ok (flatten8Forest children), w')
    | _ => (.ok [], w')

/-- The collection object `doCollection` saves (docs/js/app.js): request
parameters, posts, the per-post comment map as an ordered association list,
counts, the creation timestamp (epoch kept), and the hard-coded status. -/
structure Collection8 where
  subreddit : String
  query : Option String
  sort : String
  timeFilter : Option String
  limit : Nat
  posts : List Post8
  comments : Option (List (String × List Comment8))
  postCount : Nat
  commentCount : Nat
  createdAt : Nat
  status : String
  deriving Repr, DecidableEq

/-- The comment phase of `doCollection`: for each of the first
`min posts.length 20` posts, try `getComments`; on success record the list
under the post id, add to the count, and pause 200 ms; on failure skip that
post entirely (no entry, no delay) and continue. -/
def doCommentPhase : List Post8 → W8 → List (String × List Comment8) × Nat × W8
  | [], w => ([], 0, w)
  | p :: rest, w =>
    match getComments8 w with
    | (.ok cs, w') =>
      let w2 := { w' with time := w'.time + 200 }
      let r := doCommentPhase rest w2
      ((p.id, cs) :: r.1, cs.length + r.2.1, r.2.2)
    | (.error _, w') =>
      let r := doCommentPhase rest w'
      (r.1, r.2.1, r.2.2)

/-- docs/js/app.js `doCollection`: one `getPosts` call, the optional comment
phase over at most 20 posts, then the collection is saved with
`status: 'completed'` unconditionally; any thrown error aborts with no
collection saved (`none`). -/
def doCollection (subreddit sort : String) (timeFilter keyword : Option String)
    (limit : Nat) (includeComments : Bool) (w : W8) : Option Collection8 × W8 :=
  if subreddit = "" then (none, w)
  else
    match getPosts8 limit w with
    | (.error _, w') => (none, w')
    | (.ok posts, w') =>
      let runComments := includeComments ∧ 0 < posts.length
      let cp :=
        if runComments then doCommentPhase (posts.take (min posts.length 20)) w'
        else ([], 0, w')
      (some { subreddit := subreddit, query := keyword, sort := sort,
              timeFilter := timeFilter, limit := limit, posts := posts,
              comments := if runComments then some cp.1 else none,
              postCount := posts.length, commentCount := cp.2.1,
              createdAt := cp.2.2.time, status := "completed" }, cp.2.2)

/-- Oracle for the C2 failing input: every listing request honours the sent
`limit` parameter up to Reddit's 100-per-page cap and returns a non-empty
`after` cursor (more pages are available). -/
def netC2 : Nat → Nat → Except String FetchData := fun _ lim =>
  .ok (.listing (some ((List.range (min lim 100)).map mkChild, some "t3_cursor")))

/-- The C2 world. -/
def w8C2 : W8 := { time := 0, calls := 0, timestamps := [], net := netC2 }

/-- C2 (code bug): requesting `limit = 500` from a source that pages 100
items at a time issues exactly **one** listing fetch, not `ceil(500/100) = 5`
— `getPosts` clamps the limit to 100 (`effectiveLimit`) and never paginates
with the `after` cursor, even though the cursor comes back non-empty; only
100 posts are collected. This contradicts the repository README
(“Automatic pagination … making 3-5 requests”). -/
theorem C2_no_pagination_cx :
    effectiveLimit 500 = 100 ∧
    (doCollection "test" "top" (some "week") none 500 false w8C2).2.calls = 1 ∧
    ((doCollection "test" "top" (some "week") none 500 false w8C2).1.map
      (fun c => c.posts.length)) = some 100 ∧
    (500 + 100 - 1) / 100 = 5 ∧ (1 : Nat) ≠ 5 := by
  refine ⟨by decide, by decide, by decide, by decide, by decide⟩

/-- Oracle for the C5 counterexample run: call 0 is a listing of 10 posts,
call 4 (the 4th post's comment fetch) is a transport failure, every other
comment fetch returns the stub comment. -/
def netD5 : Nat → Nat → Except String FetchData := fun i _ =>
  if i = 0 then .ok (.listing (some ((List.range 10).map mkChild, none)))
  else if i = 4 then .error "Failed to fetch"
  else .ok (.commentsArr (some (.cons t1child .nil)))

/-- The C5 counterexample world. -/
def w8C5 : W8 := { time := 0, calls := 0, timestamps := [], net := netD5 }

/-- C5 counterexample: in the claim's own scenario — 10 posts, the 4th post's
comment fetch throws a transport error — the stored Collection has all 10
posts and the failing post is skipped, but its `status` is `"completed"`,
not `"PARTIAL"`: no code path ever produces a PARTIAL status (the Pages
variant's result has no status member at all, and the docs variant hard-codes
`completed`). -/
theorem C5_status_completed_cx :
    ((doCollection "test" "hot" none none 10 true w8C5).1.map
      Collection8.status) = some "completed" ∧
    ((doCollection "test" "hot" none none 10 true w8C5).1.map
      (fun c => c.posts.length)) = some 10 ∧
    ((doCollection "test" "hot" none none 10 true w8C5).1.map
      (fun c => (c.comments.getD []).map Prod.fst)) =
      some ["p0", "p1", "p2", "p4", "p5", "p6", "p7", "p8", "p9"] ∧
    "completed" ≠ "PARTIAL" := by
  refine ⟨by decide, by decide, by decide, by decide⟩

/-! ## Export module (part_008 `Thresh.Export`, part_004 `Exporter`)

`JSON.stringify` on the fixed record shapes is embedded from the ECMAScript
algorithm: compact mode for JSONL, two-space indentation for `toJSON`; object
member order is the construction order of the records above. -/

/-- JS `arr.join(sep)`. -/
def jsJoin (sep : String) : List String → String
  | [] => ""
  | [x] => x
  | x :: y :: rest => x ++ sep ++ jsJoin sep (y :: rest)

/-- A run of `n` copies of one character (the provenance documents write
their divider rules as literal lines of `═`; building them here keeps the
strings exact). -/
def repChar (n : Nat) (c : Char) : String := ⟨List.replicate n c⟩

/-- Lowercase hex digit (ECMA `UnicodeEscape`). -/
def hexDigit (d : Nat) : Char := "0123456789abcdef".data.getD d '0'

/-- The `\u00xx` escape body for a control character with code `n`. -/
def jsonUEscape (n : Nat) : List Char :=
  "\\u00".data ++ [hexDigit (n / 16), hexDigit (n % 16)]

/-- ECMA `QuoteJSONString`, one character: the two-character escapes, the
`\u00xx` form for other control characters, the character itself otherwise. -/
def jsonQuoteChar (c : Char) : List Char :=
  if c = '"' then "\\\"".data
  else if c = '\\' then "\\\\".data
  else if c = '\x08' then "\\b".data
  else if c = '\x0C' then "\\f".data
  else if c = '\n' then "\\n".data
  else if c = '\r' then "\\r".data
  else if c = '\t' then "\\t".data
  else if c.toNat < 0x20 then jsonUEscape c.toNat
  else [c]

/-- ECMA `QuoteJSONString`. -/
def jsonQuote (s : String) : String :=
  ⟨'"' :: (s.data.map jsonQuoteChar).flatten ++ ['"']⟩

/-- JS boolean serialization. -/
def jsBool (b : Bool) : String := if b then "true" else "false"

/-- JS `String.prototype.toUpperCase` (ASCII range, all inputs here). -/
def jsToUpper (s : String) : String :=
  ⟨s.data.map (fun c => if 'a' ≤ c ∧ c ≤ 'z' then Char.ofNat (c.toNat - 32) else c)⟩

/-- JS `String.prototype.toLowerCase` (ASCII range). -/
def jsToLower (s : String) : String :=
  ⟨s.data.map (fun c => if 'A' ≤ c ∧ c ≤ 'Z' then Char.ofNat (c.toNat + 32) else c)⟩

/-- Zero-pad to two digits. -/
def pad2 (n : Nat) : String := if n < 10 then "0" ++ jsNat n else jsNat n

/-- Zero-pad to three digits. -/
def pad3 (n : Nat) : String :=
  if n < 10 then "00" ++ jsNat n else if n < 100 then "0" ++ jsNat n else jsNat n

/-- Zero-pad to four digits. -/
def pad4 (n : Nat) : String :=
  if n < 10 then "000" ++ jsNat n
  else if n < 100 then "00" ++ jsNat n
  else if n < 1000 then "0" ++ jsNat n
  else jsNat n

/-- Zero-pad to six digits (expanded-year ISO dates). -/
def pad6 (n : Nat) : String :=
  if n < 100000 then "0" ++ pad4 (n % 100000) ++ jsNat (n / 100000) else jsNat n

/-- Gregorian date from days since the Unix epoch (civil-from-days). -/
def civilFromDays (z : Int) : Int × Nat × Nat :=
  let z2 := z + 719468
  let era := z2 / 146097
  let doe := (z2 - era * 146097).toNat
  let yoe := (doe - doe / 1460 + doe / 36524 - doe / 146096) / 365
  let y := (yoe : Int) + era * 400
  let doy := doe - (365 * yoe + yoe / 4 - yoe / 100)
  let mp := (5 * doy + 2) / 153
  let d := doy - (153 * mp + 2) / 5 + 1
  let m := if mp < 10 then mp + 3 else mp - 9
  (y + (if m ≤ 2 then 1 else 0), m, d)

/-- JS `new Date(epochSeconds * 1000).toISOString()`. -/
def jsDateISO (epochSec : Int) : String :=
  let ms := epochSec * 1000
  let days := ms / 86400000
  let msod := (ms - days * 86400000).toNat
  let c := civilFromDays days
  let yearStr :=
    if 0 ≤ c.1 ∧ c.1 ≤ 9999 then pad4 c.1.toNat
    else if c.1 < 0 then "-" ++ pad6 (-c.1).toNat
    else "+" ++ pad6 c.1.toNat
  yearStr ++ "-" ++ pad2 c.2.1 ++ "-" ++ pad2 c.2.2 ++ "T" ++
    pad2 (msod / 3600000) ++ ":" ++ pad2 (msod % 3600000 / 60000) ++ ":" ++
    pad2 (msod % 60000 / 1000) ++ "." ++ pad3 (msod % 1000) ++ "Z"

/-- The export options object of part_008 (`anonymize`, `includeComments`,
`minScore`, `keyword`; absent members are `none`). -/
structure ExportOptions8 where
  anonymize : Bool := false
  includeComments : Bool := false
  minScore : Option Int := none
  keyword : Option String := none
  deriving Repr, DecidableEq

/-- part_008 `processPost`: copy, anonymizing the author when asked. -/
def processPost (p : Post8) (o : ExportOptions8) : Post8 :=
  if o.anonymize then { p with author := hashUsername (some p.author) } else p

/-- part_008 `processComment` equivalent (inlined at both comment sites). -/
def processComment8 (c : Comment8) (o : ExportOptions8) : Comment8 :=
  if o.anonymize then { c with author := hashUsername (some c.author) } else c

/-- The quoting condition of `escapeCSV`: the field contains a comma, a
double quote, or a newline. -/
def needsQuote (s : String) : Bool :=
  jsIncludes "," s || jsIncludes "\"" s || jsIncludes "\n" s

/-- Doubling of embedded double quotes (`s.replace(/"/g, '""')`). -/
def csvDouble (s : String) : String :=
  ⟨(s.data.map (fun c => if c = '"' then ['"', '"'] else [c])).flatten⟩

/-- part_008 `escapeCSV` on a stringified field (the `null`/`undefined`
branch never fires on these records, whose members all exist). -/
def escapeCSV (s : String) : String :=
  if needsQuote s then "\"" ++ csvDouble s ++ "\"" else s

/-- The CSV header of `toCSV`. -/
def csvCols : List String :=
  ["id", "title", "author", "score", "upvoteRatio", "numComments", "created",
   "selftext", "url", "permalink", "flair", "subreddit"]

/-- One post's CSV fields in column order, after the epoch-to-ISO conversion
(`if (p.created)` — a zero epoch is falsy and stays numeric) and JS
stringification of the numbers. -/
def postCSVRow (p : Post8) : List String :=
  [p.id, p.title, p.author, jsInt p.score, jsInt p.upvoteRatio,
   jsInt p.numComments,
   if p.created ≠ 0 then jsDateISO p.created else jsInt p.created,
   p.selftext, p.url, p.permalink, p.flair, p.subreddit]

/-- part_008 `toCSV`: BOM, unescaped header row, one escaped row per post,
rows joined with `\n`. -/
def toCSV (posts : List Post8) (o : ExportOptions8) : String :=
  let rows := jsJoin "," csvCols ::
    posts.map (fun post => jsJoin "," ((postCSVRow (processPost post o)).map escapeCSV))
  "\uFEFF" ++ jsJoin "\n" rows

/-- Compact `JSON.stringify` of a post record (member order = construction
order). -/
def jsonStringifyPost (p : Post8) : String :=
  "\x7b\"id\":" ++ jsonQuote p.id ++ ",\"title\":" ++ jsonQuote p.title ++
  ",\"author\":" ++ jsonQuote p.author ++ ",\"score\":" ++ jsInt p.score ++
  ",\"upvoteRatio\":" ++ jsInt p.upvoteRatio ++
  ",\"numComments\":" ++ jsInt p.numComments ++
  ",\"created\":" ++ jsInt p.created ++ ",\"selftext\":" ++ jsonQuote p.selftext ++
  ",\"url\":" ++ jsonQuote p.url ++ ",\"permalink\":" ++ jsonQuote p.permalink ++
  ",\"isVideo\":" ++ jsBool p.isVideo ++ ",\"isSelf\":" ++ jsBool p.isSelf ++
  ",\"flair\":" ++ jsonQuote p.flair ++ ",\"subreddit\":" ++ jsonQuote p.subreddit ++
  "\x7d"

/-- `JSON.stringify(p, null, 2)` element form at array nesting depth 1. -/
def jsonPrettyPost (p : Post8) : String :=
  "  \x7b\n    \"id\": " ++ jsonQuote p.id ++
  ",\n    \"title\": " ++ jsonQuote p.title ++
  ",\n    \"author\": " ++ jsonQuote p.author ++
  ",\n    \"score\": " ++ jsInt p.score ++
  ",\n    \"upvoteRatio\": " ++ jsInt p.upvoteRatio ++
  ",\n    \"numComments\": " ++ jsInt p.numComments ++
  ",\n    \"created\": " ++ jsInt p.created ++
  ",\n    \"selftext\": " ++ jsonQuote p.selftext ++
  ",\n    \"url\": " ++ jsonQuote p.url ++
  ",\n    \"permalink\": " ++ jsonQuote p.permalink ++
  ",\n    \"isVideo\": " ++ jsBool p.isVideo ++
  ",\n    \"isSelf\": " ++ jsBool p.isSelf ++
  ",\n    \"flair\": " ++ jsonQuote p.flair ++
  ",\n    \"subreddit\": " ++ jsonQuote p.subreddit ++
  "\n  \x7d"

/-- `JSON.stringify(arr, null, 2)` for an array of posts. -/
def jsonPrettyArr (l : List Post8) : String :=
  match l with
  | [] => "[]"
  | _ => "[\n" ++ jsJoin ",\n" (l.map jsonPrettyPost) ++ "\n]"

/-- part_008 `toJSON`: pretty-printed array of the processed posts. -/
def toJSON (posts : List Post8) (o : ExportOptions8) : String :=
  jsonPrettyArr (posts.map (fun p => processPost p o))

/-- part_008 `toJSONL`: one compact record per post, joined with `\n`. -/
def toJSONL (posts : List Post8) (o : ExportOptions8) : String :=
  jsJoin "\n" (posts.map (fun p => jsonStringifyPost (processPost p o)))

/-- The CSV header of `commentsToCSV`. -/
def commentCols : List String :=
  ["id", "author", "body", "score", "created", "parentId", "depth"]

/-- One comment's CSV fields in column order. -/
def commentCSVRow (c : Comment8) : List String :=
  [c.id, c.author, c.body, jsInt c.score,
   if c.created ≠ 0 then jsDateISO c.created else jsInt c.created,
   c.parentId, jsNat c.depth]

/-- part_008 `commentsToCSV`. -/
def commentsToCSV (cs : List Comment8) (o : ExportOptions8) : String :=
  let rows := jsJoin "," commentCols ::
    cs.map (fun c => jsJoin "," ((commentCSVRow (processComment8 c o)).map escapeCSV))
  "\uFEFF" ++ jsJoin "\n" rows

/-- Compact `JSON.stringify` of a comment record. -/
def jsonStringifyComment (c : Comment8) : String :=
  "\x7b\"id\":" ++ jsonQuote c.id ++ ",\"author\":" ++ jsonQuote c.author ++
  ",\"body\":" ++ jsonQuote c.body ++ ",\"score\":" ++ jsInt c.score ++
  ",\"created\":" ++ jsInt c.created ++ ",\"parentId\":" ++ jsonQuote c.parentId ++
  ",\"depth\":" ++ jsNat c.depth ++ "\x7d"

/-- `JSON.stringify(c, null, 2)` element form for a comment. -/
def jsonPrettyComment (c : Comment8) : String :=
  "  \x7b\n    \"id\": " ++ jsonQuote c.id ++
  ",\n    \"author\": " ++ jsonQuote c.author ++
  ",\n    \"body\": " ++ jsonQuote c.body ++
  ",\n    \"score\": " ++ jsInt c.score ++
  ",\n    \"created\": " ++ jsInt c.created ++
  ",\n    \"parentId\": " ++ jsonQuote c.parentId ++
  ",\n    \"depth\": " ++ jsNat c.depth ++
  "\n  \x7d"

/-- `JSON.stringify(arr, null, 2)` for an array of comments. -/
def jsonPrettyCommentArr (l : List Comment8) : String :=
  match l with
  | [] => "[]"
  | _ => "[\n" ++ jsJoin ",\n" (l.map jsonPrettyComment) ++ "\n]"

/-- Truthiness of an optional string (`undefined`, absent, and `""` falsy). -/
def jsTruthyS (v : Option String) : Bool := (v.getD "") != ""

/-- part_008 `generateProvenance`: the document lines in order, with the
conditional lines (`query`, `timeFilter`, `minScore`, `keyword`) included
exactly when truthy; `now` is the export instant. -/
def provenanceLines8 (c : Collection8) (format : String) (o : ExportOptions8)
    (now : Int) : List String :=
  [repChar 55 '═',
   "  PROVENANCE DOCUMENT — The Threshing Floor v0.1.0",
   repChar 55 '═',
   "",
   "Tool:               The Threshing Floor (Thresh)",
   "Version:            0.1.0",
   "Export date:        " ++ jsDateISO now,
   "",
   "── Data Source ──────────────────────────────────────",
   "Platform:           Reddit (public JSON feed)",
   "API endpoint:       www.reddit.com/*.json",
   "Subreddit:          r/" ++ c.subreddit] ++
  (if jsTruthyS c.query then ["Search query:       " ++ c.query.getD ""] else []) ++
  ["Sort:               " ++ jsOrS c.sort "hot"] ++
  (if jsTruthyS c.timeFilter then
    ["Time filter:        " ++ c.timeFilter.getD ""] else []) ++
  ["Requested limit:    " ++ (if c.limit = 0 then "—" else jsNat c.limit),
   "",
   "── Collection Results ──────────────────────────────",
   "Posts collected:     " ++ jsNat c.postCount,
   "Comments collected:  " ++ jsNat c.commentCount,
   "Collection date:    " ++ (if c.createdAt = 0 then "—" else jsNat c.createdAt),
   "Status:             " ++ jsOrS c.status "completed",
   "",
   "── Export Options ──────────────────────────────────",
   "Format:             " ++ jsToUpper format,
   "Usernames:          " ++
     (if o.anonymize then "Anonymized (hashed)" else "Included as-is"),
   "Comments included:  " ++ (if o.includeComments then "Yes" else "No")] ++
  (match o.minScore with
   | some m => if m ≠ 0 then ["Min score filter:   " ++ jsInt m] else []
   | none => []) ++
  (if jsTruthyS o.keyword then
    ["Keyword filter:     " ++ o.keyword.getD ""] else []) ++
  ["",
   "── Methodology Notes ──────────────────────────────",
   "Data was collected from Reddit\x27s public JSON feeds via a client-side",
   "web application. Requests were routed through a CORS proxy and",
   "rate-limited to ~10 requests/minute to respect Reddit\x27s servers.",
   "",
   "Reddit\x27s API returns at most 100 items per request and limits",
   "listing depth to approximately 1000 items. Data represents a",
   "snapshot in time; scores, comment counts, and content may have",
   "changed since collection.",
   "",
   "── Ethics & Usage ─────────────────────────────────",
   "This data contains publicly posted content from Reddit.",
   "Researchers should be aware of:",
   "  - Re-identification risks even with anonymized usernames",
   "  - Reddit API Terms of Service (https://www.reddit.com/wiki/api)",
   "  - IRB/ethics board requirements for human subjects research",
   "  - Context collapse when analyzing posts outside their threads",
   "",
   "── Citation ───────────────────────────────────────",
   "If using this data in published work, consider citing:",
   "  Data collected via The Threshing Floor v0.1.0",
   "  (https://github.com/jethomasphd/The_Threshing_Floor)",
   "",
   repChar 55 '═']

/-- part_008 `generateProvenance` (the joined document). -/
def generateProvenance8 (c : Collection8) (format : String) (o : ExportOptions8)
    (now : Int) : String :=
  jsJoin "\n" (provenanceLines8 c format o now)

/-- The post filters of `exportCollection`, in order: `minScore` (skipped
when falsy), then case-insensitive keyword match against title or selftext
(each guarded by its own truthiness). -/
def filteredPosts (c : Collection8) (o : ExportOptions8) : List Post8 :=
  let p1 :=
    match o.minScore with
    | some m => if m ≠ 0 then c.posts.filter (fun p => m ≤ p.score) else c.posts
    | none => c.posts
  match o.keyword with
  | some kw =>
    if kw ≠ "" then
      p1.filter (fun p =>
        (p.title != "" && jsIncludes (jsToLower kw) (jsToLower p.title)) ||
        (p.selftext != "" && jsIncludes (jsToLower kw) (jsToLower p.selftext)))
    else p1
  | none => p1

/-- The data file of `exportCollection` (`format` defaulted to csv upstream;
the `else` branch is JSON). -/
def dataFile (c : Collection8) (format : String) (o : ExportOptions8) :
    String × String :=
  if format = "csv" then ("posts.csv", toCSV (filteredPosts c o) o)
  else if format = "jsonl" then ("posts.jsonl", toJSONL (filteredPosts c o) o)
  else ("posts.json", toJSON (filteredPosts c o) o)

/-- The optional comments file of `exportCollection`: only when requested and
present and non-empty after flattening the per-post map in key order. -/
def commentFiles (c : Collection8) (format : String) (o : ExportOptions8) :
    List (String × String) :=
  if o.includeComments ∧ c.comments.isSome then
    let allComments := ((c.comments.getD []).map Prod.snd).flatten
    if 0 < allComments.length then
      if format = "csv" then [("comments.csv", commentsToCSV allComments o)]
      else
        let processed := allComments.map (fun cc => processComment8 cc o)
        if format = "jsonl" then
          [("comments.jsonl", jsJoin "\n" (processed.map jsonStringifyComment))]
        else [("comments.json", jsonPrettyCommentArr processed)]
    else []
  else []

/-- part_008 `exportCollection` as the archive's file list, in the order the
files are added: the data file, `provenance.txt`, then the optional comments
file. Only the provenance entry reads the clock. -/
def exportFiles (c : Collection8) (format : String) (o : ExportOptions8)
    (now : Int) : List (String × String) :=
  let fmt := jsOrS format "csv"
  dataFile c fmt o ::
    ("provenance.txt", generateProvenance8 c fmt o now) :: commentFiles c fmt o

/-- The part_004 `Exporter` options object (`format` defaults to csv,
`anonymize` to true on destructuring). -/
structure ExporterOptions where
  format : Option String := none
  anonymize : Option Bool := none
  deriving Repr, DecidableEq

/-- part_004 `Exporter._generateProvenance`: a fixed 50-line document over
`(collection, options, now)`; `collection` is the Pages-variant `collect`
result (`config`, `posts`, `comments`, `timestamp`). Only line 26 reads the
clock. -/
def provenanceLines (c : CollectResult) (o : ExporterOptions) (now : Int) :
    List String :=
  [repChar 59 '═',
   "  PROVENANCE — The Threshing Floor",
   "  Data Collection Methodology Record",
   repChar 59 '═',
   "",
   "TOOL",
   "  Name: The Threshing Floor (Cloudflare Pages Edition)",
   "  Version: 1.0.0",
   "  Method: Reddit public JSON endpoints (no API authentication)",
   "",
   "COLLECTION PARAMETERS",
   "  Subreddit(s): " ++ c.config.subreddit,
   "  Sort: " ++ c.config.sort,
   "  Time filter: " ++ c.config.timeFilter,
   "  Max posts requested: " ++ jsNat c.config.limit,
   "  Keyword filter: " ++ (if c.config.keyword = "" then "(none)" else c.config.keyword),
   "  Include comments: " ++ (if c.config.includeComments then "yes" else "no"),
   "",
   "RESULTS",
   "  Posts collected: " ++ jsNat c.posts.length,
   "  Comments collected: " ++ jsNat c.comments.length,
   "  Collection timestamp (UTC): " ++ jsNat c.timestamp,
   "",
   "EXPORT",
   "  Format: " ++ jsToUpper (o.format.getD "csv"),
   "  Authors anonymized: " ++ (if o.anonymize.getD true then "yes" else "no"),
   "  Export timestamp (UTC): " ++ jsDateISO now,
   "",
   "DATA SOURCE",
   "  Endpoint: https://www.reddit.com/r/\x7bsubreddit\x7d/\x7bsort\x7d.json",
   "  Access method: Public JSON (no OAuth, no API key)",
   "  Proxied through: Cloudflare Pages Function (CORS proxy only)",
   "",
   "LIMITATIONS & NOTES",
   "  - Reddit\x27s public JSON endpoints return a maximum of ~100 posts per request",
   "  - Post scores and comment counts reflect values at collection time",
   "  - Deleted or removed posts/comments are excluded",
   "  - Comment depth limited to 2 levels for performance",
   "  - Data represents a point-in-time snapshot, not a continuous feed",
   "",
   "ETHICAL USE",
   "  - This data was collected from publicly accessible Reddit posts",
   "  - Researchers should consider re-identification risks",
   "  - Consult your IRB before using in human subjects research",
   "  - See: https://www.reddit.com/wiki/api-terms",
   "",
   repChar 59 '═',
   "  Generated by The Threshing Floor",
   "  A Jacob E. Thomas artifact",
   repChar 59 '═']

/-- part_004 `Exporter._generateProvenance` (the joined document). -/
def generateProvenance (c : CollectResult) (o : ExporterOptions) (now : Int) :
    String :=
  jsJoin "\n" (provenanceLines c o now)

/-! ## Serialization lemmas (no literal newline inside a compact record) -/

/-- A character pulled out of a string by `getD` with default `'0'` is never
a newline when the string has none. -/
theorem getD_chars_ne_nl (s : String) (d : Nat) (hnl : '\n' ∉ s.data) :
    s.data.getD d '0' ≠ '\n' := by
  rw [List.getD_eq_getElem?_getD]
  cases h : s.data[d]? with
  | none => simp
  | some x =>
    have hx := List.getElem?_mem h
    simp only [Option.getD_some]
    exact fun he => hnl (he ▸ hx)

/-- Base-36 and base-10 digit characters are never a newline. -/
theorem digitChar36_ne_nl (d : Nat) : digitChar36 d ≠ '\n' :=
  getD_chars_ne_nl _ d (by decide)

/-- Hex digit characters are never a newline. -/
theorem hexDigit_ne_nl (d : Nat) : hexDigit d ≠ '\n' :=
  getD_chars_ne_nl _ d (by decide)

/-- Decimal/base-36 renderings contain no newline. -/
theorem nl_not_mem_natBaseAux (b : Nat) : ∀ (fuel n : Nat),
    '\n' ∉ natBaseAux b fuel n := by
  intro fuel
  induction fuel with
  | zero =>
    intro n
    simp only [natBaseAux, List.mem_singleton]
    exact fun h => digitChar36_ne_nl _ h.symm
  | succ fuel ih =>
    intro n
    simp only [natBaseAux]
    split
    · simp only [List.mem_singleton]
      exact fun h => digitChar36_ne_nl _ h.symm
    · simp only [List.mem_append, List.mem_singleton]
      rintro (h | h)
      · exact ih _ h
      · exact digitChar36_ne_nl _ h.symm

/-- `jsNat` contains no newline. -/
theorem nl_not_mem_jsNat (n : Nat) : '\n' ∉ (jsNat n).data :=
  nl_not_mem_natBaseAux 10 n n

/-- `jsInt` contains no newline. -/
theorem nl_not_mem_jsInt (i : Int) : '\n' ∉ (jsInt i).data := by
  unfold jsInt
  split
  · simp only [String.data_append]
    simp only [List.mem_append]
    rintro (h | h)
    · revert h; decide
    · exact nl_not_mem_jsNat _ h
  · exact nl_not_mem_jsNat _

/-- One quoted JSON character contains no newline (a raw newline is always
escaped). -/
theorem nl_not_mem_jsonQuoteChar (c : Char) : '\n' ∉ jsonQuoteChar c := by
  unfold jsonQuoteChar
  split
  · decide
  · split
    · decide
    · split
      · decide
      · split
        · decide
        · split
          · decide
          · split
            · decide
            · split
              · decide
              · split
                · intro hmem
                  simp only [jsonUEscape, List.mem_append, List.mem_cons,
                    List.not_mem_nil, or_false] at hmem
                  rcases hmem with h | h | h
                  · exact absurd h (by decide)
                  · exact hexDigit_ne_nl _ h.symm
                  · exact hexDigit_ne_nl _ h.symm
                · rename_i hlt
                  intro hmem
                  simp only [List.mem_singleton] at hmem
                  exact hlt (hmem ▸ (by decide : ('\n').toNat < 0x20))

/-- A quoted JSON string contains no newline. -/
theorem nl_not_mem_jsonQuote (s : String) : '\n' ∉ (jsonQuote s).data := by
  intro hmem
  have hdata : (jsonQuote s).data =
      '"' :: ((s.data.map jsonQuoteChar).flatten ++ ['"']) := rfl
  rw [hdata] at hmem
  simp only [List.mem_cons, List.mem_append, List.mem_flatten, List.mem_map,
    List.mem_singleton] at hmem
  rcases hmem with h | ⟨l, ⟨a, _, rfl⟩, hl⟩ | h
  · exact absurd h (by decide)
  · exact nl_not_mem_jsonQuoteChar a hl
  · exact absurd h (by decide)

/-- A serialized boolean contains no newline. -/
theorem nl_not_mem_jsBool (b : Bool) : '\n' ∉ (jsBool b).data := by
  cases b <;> decide

/-- Concatenation preserves newline-freedom. -/
theorem nl_not_mem_append (a b : String) (ha : '\n' ∉ a.data)
    (hb : '\n' ∉ b.data) : '\n' ∉ (a ++ b).data := by
  simp only [String.data_append, List.mem_append]
  rintro (h | h)
  · exact ha h
  · exact hb h

/-- The quoted body produced by `jsonQuote`, as it surfaces after splitting
a record concatenation, contains no newline. -/
theorem nl_not_mem_quoteBody (s : String) :
    '\n' ∉ ('"' :: (s.data.map jsonQuoteChar).flatten) := by
  intro hmem
  simp only [List.mem_cons, List.mem_flatten, List.mem_map] at hmem
  rcases hmem with h | ⟨l, ⟨a, _, rfl⟩, hl⟩
  · exact absurd h (by decide)
  · exact nl_not_mem_jsonQuoteChar a hl

/-- A compact post record contains no literal newline. -/
theorem nl_not_mem_jsonStringifyPost (p : Post8) :
    '\n' ∉ (jsonStringifyPost p).data := by
  unfold jsonStringifyPost
  repeat'
    first
      | apply nl_not_mem_append
      | exact nl_not_mem_quoteBody _
      | exact nl_not_mem_jsInt _
      | exact nl_not_mem_jsBool _
      | decide

/-- Joining newline-free lines with `"\n"` puts exactly one line per record:
the newline count is one less than the number of records. -/
theorem count_jsJoin_nl : ∀ (l : List String), (∀ x ∈ l, '\n' ∉ x.data) →
    ((jsJoin "\n" l).data.count '\n') = l.length - 1
  | [], _ => by simp [jsJoin]
  | [x], h => by
    have hx := List.count_eq_zero.mpr (h x (by simp))
    simpa [jsJoin] using hx
  | x :: y :: rest, h => by
    have ih := count_jsJoin_nl (y :: rest) (fun z hz => h z (List.mem_cons_of_mem _ hz))
    have hx : (x.data.count '\n') = 0 := List.count_eq_zero.mpr (h x (by simp))
    simp only [jsJoin, String.data_append, List.count_append, hx]
    have hnl : (("\n" : String).data.count '\n') = 1 := by decide
    rw [hnl]
    simp only [List.length_cons] at ih ⊢
    omega

/-- Single-character `includes` is list membership. -/
theorem jsIncludesL_single (c : Char) : ∀ (l : List Char),
    jsIncludesL [c] l = l.contains c
  | [] => rfl
  | d :: rest => by
    simp only [jsIncludesL, leadMatch, List.contains_cons, jsIncludesL_single c rest,
      Bool.and_true]
    by_cases h : c = d
    · subst h; simp
    · simp [h, fun he => h (by simpa [eq_comm] using he)]

/-- `needsQuote` in terms of character membership. -/
theorem needsQuote_eq (s : String) :
    needsQuote s = (s.data.contains ',' || s.data.contains '"' || s.data.contains '\n') := by
  unfold needsQuote jsIncludes
  rw [show (",").data = [','] from rfl, show ("\"").data = ['"'] from rfl,
    show ("\n").data = ['\n'] from rfl]
  rw [jsIncludesL_single, jsIncludesL_single, jsIncludesL_single]

/-- A field that `escapeCSV` leaves unquoted contains no double quote. -/
theorem needsQuote_false_no_quote (s : String) (h : needsQuote s = false) :
    '"' ∉ s.data := by
  rw [needsQuote_eq] at h
  simp only [Bool.or_eq_false_iff] at h
  intro hmem
  have h3 : s.data.elem '"' = false := h.1.2
  have h4 : s.data.elem '"' = true := List.elem_iff.mpr hmem
  rw [h4] at h3
  exact Bool.noConfusion h3

/-! ## C9 — CSV/JSON/JSONL serialization shapes -/

/-- C9: `toCSV` starts with the UTF-8 byte-order mark; `escapeCSV` wraps a
field in double quotes (doubling embedded quotes) exactly when the field
contains a comma, a double quote, or a newline, and returns it verbatim
otherwise; `toJSONL` emits exactly one compact record per line (records
contain no literal newline, and the join has one newline between consecutive
records); `toJSON` is the two-space pretty-printed array (multi-line as soon
as a post exists). -/
theorem C9_export_serialization :
    (∀ (posts : List Post8) (o : ExportOptions8),
      ∃ rest, toCSV posts o = "\uFEFF" ++ rest) ∧
    (∀ s : String,
      (needsQuote s = true → escapeCSV s = "\"" ++ csvDouble s ++ "\"") ∧
      (needsQuote s = false → escapeCSV s = s) ∧
      ((∃ inner, escapeCSV s = "\"" ++ inner ++ "\"") ↔ needsQuote s = true)) ∧
    (∀ (p : Post8), '\n' ∉ (jsonStringifyPost p).data) ∧
    (∀ (posts : List Post8) (o : ExportOptions8),
      toJSONL posts o =
        jsJoin "\n" (posts.map (fun p => jsonStringifyPost (processPost p o))) ∧
      (toJSONL posts o).data.count '\n' = posts.length - 1) ∧
    (∀ (posts : List Post8) (o : ExportOptions8),
      toJSON posts o = jsonPrettyArr (posts.map (fun p => processPost p o)) ∧
      (posts ≠ [] → '\n' ∈ (toJSON posts o).data)) := by
  refine ⟨?_, ?_, nl_not_mem_jsonStringifyPost, ?_, ?_⟩
  · intro posts o
    exact ⟨_, rfl⟩
  · intro s
    refine ⟨?_, ?_, ?_⟩
    · intro h
      simp [escapeCSV, h]
    · intro h
      simp [escapeCSV, h]
    · constructor
      · rintro ⟨inner, hinner⟩
        by_contra hq
        have hq' : needsQuote s = false := by
          cases hval : needsQuote s
          · rfl
          · exact absurd hval hq
        have hesc : escapeCSV s = s := by simp [escapeCSV, hq']
        rw [hesc] at hinner
        have hmem : '"' ∈ s.data := by
          rw [hinner]
          simp [String.data_append]
        exact needsQuote_false_no_quote s hq' hmem
      · intro h
        exact ⟨csvDouble s, by simp [escapeCSV, h]⟩
  · intro posts o
    refine ⟨rfl, ?_⟩
    rw [show toJSONL posts o =
      jsJoin "\n" (posts.map (fun p => jsonStringifyPost (processPost p o))) from rfl]
    rw [count_jsJoin_nl]
    · simp
    · intro x hx
      obtain ⟨p, _, rfl⟩ := List.mem_map.mp hx
      exact nl_not_mem_jsonStringifyPost _
  · intro posts o
    refine ⟨rfl, ?_⟩
    intro hne
    cases posts with
    | nil => exact absurd rfl hne
    | cons p rest =>
      show '\n' ∈ (jsonPrettyArr ((p :: rest).map (fun q => processPost q o))).data
      simp only [List.map_cons, jsonPrettyArr, String.data_append, List.mem_append]
      left
      left
      decide

/-- A concrete post used by the serialization witness. -/
def pW : Post8 :=
  { id := "x1", title := "a,b", author := "alice", score := 3, upvoteRatio := 1,
    numComments := 2, created := 0, selftext := "line", url := "https://e/",
    permalink := "https://www.reddit.com/p", isVideo := false, isSelf := true,
    flair := "", subreddit := "aaa" }

/-- Witness for `C9_export_serialization` at a concrete post list, field
strings, and options. -/
theorem C9_export_serialization_witness :
    (∃ rest, toCSV [pW] {} = "\uFEFF" ++ rest) ∧
    (needsQuote "a,b" = true ∧ escapeCSV "a,b" = "\"" ++ csvDouble "a,b" ++ "\"") ∧
    (needsQuote "plain" = false ∧ escapeCSV "plain" = "plain") ∧
    (toJSONL [pW, pW] {}).data.count '\n' = 1 ∧
    ([pW] ≠ ([] : List Post8) ∧ '\n' ∈ (toJSON [pW] {}).data) :=
  ⟨C9_export_serialization.1 [pW] {},
   ⟨by decide, (C9_export_serialization.2.1 "a,b").1 (by decide)⟩,
   ⟨by decide, (C9_export_serialization.2.1 "plain").2.1 (by decide)⟩,
   by
     have h := (C9_export_serialization.2.2.2.1 [pW, pW] {}).2
     simpa using h,
   ⟨by decide, (C9_export_serialization.2.2.2.2 [pW] {}).2 (by decide)⟩⟩

/-! ## C3 — anonymization is pure and time-independent -/

/-- C3: the pseudonym is a pure function of the raw username (the code takes
no salt, so for any fixed salt the pair `(rawUsername, exportSalt)`
determines it; equal usernames within one export get equal pseudonyms), the
`[deleted]` sentinel passes through unchanged in both implementations, and no
data file of an export bundle depends on the wall clock — dropping the
`provenance.txt` entry, two bundles generated at different instants are
identical. -/
theorem C3_anonymization_pure :
    (∀ u v : Option String, u = v →
      hashUsername u = hashUsername v ∧ anonymize u = anonymize v) ∧
    hashUsername (some "[deleted]") = "[deleted]" ∧
    anonymize (some "[deleted]") = "[deleted]" ∧
    (∀ (o : ExportOptions8) (p q : Post8), p.author = q.author →
      (processPost p o).author = (processPost q o).author) ∧
    (∀ (c : Collection8) (format : String) (o : ExportOptions8) (t₁ t₂ : Int),
      (exportFiles c format o t₁).eraseIdx 1 = (exportFiles c format o t₂).eraseIdx 1) := by
  refine ⟨?_, by decide, by decide, ?_, ?_⟩
  · rintro u v rfl
    exact ⟨rfl, rfl⟩
  · intro o p q h
    unfold processPost
    split
    · simp [h]
    · simp [h]
  · intro c format o t₁ t₂
    simp only [exportFiles, List.eraseIdx]

/-- Witness for `C3_anonymization_pure` at concrete usernames, posts and a
concrete collection. -/
theorem C3_anonymization_pure_witness :
    (some "alice" = some "alice" ∧
      hashUsername (some "alice") = hashUsername (some "alice")) ∧
    (pW.author = pW.author ∧
      (processPost pW { anonymize := true }).author =
        (processPost pW { anonymize := true }).author) :=
  ⟨⟨rfl, (C3_anonymization_pure.1 (some "alice") (some "alice") rfl).1⟩,
   ⟨rfl, C3_anonymization_pure.2.2.2.1 { anonymize := true } pW pW rfl⟩⟩

/-! ## C6 — provenance is deterministic up to the export-timestamp line -/

/-- C6: regenerating the part_004 provenance document from identical
`(collection, options)` at two different export instants yields line lists of
equal length that are byte-identical once the export-timestamp line
(index 26) is removed — and that line is exactly the export timestamp. -/
theorem C6_provenance_deterministic (c : CollectResult) (o : ExporterOptions)
    (t₁ t₂ : Int) :
    generateProvenance c o t₁ = jsJoin "\n" (provenanceLines c o t₁) ∧
    (provenanceLines c o t₁).length = (provenanceLines c o t₂).length ∧
    (provenanceLines c o t₁).eraseIdx 26 = (provenanceLines c o t₂).eraseIdx 26 ∧
    (provenanceLines c o t₁).getD 26 "" =
      "  Export timestamp (UTC): " ++ jsDateISO t₁ := by
  refine ⟨rfl, ?_, ?_, ?_⟩
  · simp [provenanceLines]
  · simp only [provenanceLines, List.eraseIdx]
  · simp [provenanceLines]

end Thresh
